import Mathlib

/-!
Verification of the CART storage driver (cart_driver.c, cart_cache.c,
cart_client.c) against its natural-language specification.

The C sources are shallowly embedded: machine integers become Nat (with
explicit wrap-around modulo 2 ^ 64 where the C code works on uint64_t),
C int return codes become Int, byte buffers become lists of Nat, and the
process-wide mutable tables become explicit state records threaded through
the operations.  The remote CART device and its transport are external
collaborators (spec section 6); they are modelled as an explicit device
state with the wire semantics the spec assigns to each command.
-/

/-- Modelled from the spec: the frame size constant CART_FRAME_SIZE comes
from the header cart_controller.h, which is not part of the sources here;
the spec fixes it only as one protocol-defined constant.  The standard
value 1024 matching the 64 x 1024 allocation grid noted in cart_driver.c
is used. -/
def CART_FRAME_SIZE : Nat := 1024

/-- Modelled from the spec: number of cartridges; cart_driver.c describes
the allocation table as sized 64 x 1024. -/
def CART_MAX_CARTRIDGES : Nat := 64

/-- Modelled from the spec: frames per cartridge (named CART_CARTRIDGE_SIZE
in the source); cart_driver.c describes the allocation table as sized
64 x 1024. -/
def CART_CARTRIDGE_SIZE : Nat := 1024

/-- Modelled from the spec: the command opcodes from the absent header
cart_controller.h, in their declaration order.  Only their distinctness
matters to the claims settled below. -/
def CART_OP_INITMS : Nat := 0

/-- Modelled from the spec: zero-cartridge command key. -/
def CART_OP_BZERO : Nat := 1

/-- Modelled from the spec: load-cartridge command key. -/
def CART_OP_LDCART : Nat := 2

/-- Modelled from the spec: read-frame command key. -/
def CART_OP_RDFRME : Nat := 3

/-- Modelled from the spec: write-frame command key. -/
def CART_OP_WRFRME : Nat := 4

/-- Modelled from the spec: power-off command key. -/
def CART_OP_POWOFF : Nat := 5

/-- Register field selectors of the opcode codec (enum CartRegisters of
the absent header; the five named fields are the ones the sources use,
CART_REG_MAXVAL is the unused selector hitting the default case). -/
inductive CartRegisters where
  | KY1 | KY2 | RT1 | CT1 | FM1 | MAXVAL
deriving DecidableEq, Repr

/-- Embedding of create_cart_opcode (cart_driver.c, lines 80 to 100):
shifts the six fields to their bit offsets on uint64_t values and ors
them together.  Each C shift wraps modulo 2 ^ 64. -/
def create_cart_opcode (ky1 ky2 rt cart frame resv : Nat) : Nat :=
  let p1 := (ky1 <<< 56) % 2 ^ 64
  let p2 := (ky2 <<< 48) % 2 ^ 64
  let p3 := (rt <<< 47) % 2 ^ 64
  let p4 := (cart <<< 31) % 2 ^ 64
  let p5 := (frame <<< 15) % 2 ^ 64
  let p6 := resv % 2 ^ 64
  ((((p1 ||| p2) ||| p3) ||| p4) ||| p5) ||| p6

/-- Embedding of extract_cart_opcode (cart_driver.c, lines 111 to 137):
projects one named field out of a packed register; the default (MAXVAL)
case logs an error and returns the register unchanged. -/
def extract_cart_opcode (resp : Nat) (f : CartRegisters) : Nat :=
  match f with
  | .KY1 => resp >>> 56
  | .KY2 => (resp >>> 48) &&& 0xFF
  | .RT1 => (resp >>> 47) &&& 0x01
  | .CT1 => (resp >>> 31) &&& 0xFFFF
  | .FM1 => (resp >>> 15) &&& 0xFFFF
  | .MAXVAL => resp

/-- For in-range fields the packed register equals the weighted sum of the
fields, so that the extractions reduce to division and remainder facts. -/
theorem create_cart_opcode_eq_sum (ky1 ky2 rt cart frame resv : Nat)
    (h1 : ky1 < 2 ^ 8) (h2 : ky2 < 2 ^ 8) (h3 : rt < 2)
    (h4 : cart < 2 ^ 16) (h5 : frame < 2 ^ 16) (h6 : resv < 2 ^ 15) :
    create_cart_opcode ky1 ky2 rt cart frame resv =
      ky1 * 2 ^ 56 + ky2 * 2 ^ 48 + rt * 2 ^ 47 + cart * 2 ^ 31 +
        frame * 2 ^ 15 + resv := by
  have e1 : (ky1 <<< 56) % 2 ^ 64 = 2 ^ 56 * ky1 := by
    rw [Nat.shiftLeft_eq, Nat.mod_eq_of_lt (by omega), Nat.mul_comm]
  have e2 : (ky2 <<< 48) % 2 ^ 64 = 2 ^ 48 * ky2 := by
    rw [Nat.shiftLeft_eq, Nat.mod_eq_of_lt (by omega), Nat.mul_comm]
  have e3 : (rt <<< 47) % 2 ^ 64 = 2 ^ 47 * rt := by
    rw [Nat.shiftLeft_eq, Nat.mod_eq_of_lt (by omega), Nat.mul_comm]
  have e4 : (cart <<< 31) % 2 ^ 64 = 2 ^ 31 * cart := by
    rw [Nat.shiftLeft_eq, Nat.mod_eq_of_lt (by omega), Nat.mul_comm]
  have e5 : (frame <<< 15) % 2 ^ 64 = 2 ^ 15 * frame := by
    rw [Nat.shiftLeft_eq, Nat.mod_eq_of_lt (by omega), Nat.mul_comm]
  have e6 : resv % 2 ^ 64 = resv := Nat.mod_eq_of_lt (by omega)
  have s5 : 2 ^ 15 * frame ||| resv = 2 ^ 15 * frame + resv :=
    (Nat.mul_add_lt_is_or h6 frame).symm
  have b5 : 2 ^ 15 * frame + resv < 2 ^ 31 := by omega
  have s4 : 2 ^ 31 * cart ||| (2 ^ 15 * frame + resv) =
      2 ^ 31 * cart + (2 ^ 15 * frame + resv) :=
    (Nat.mul_add_lt_is_or b5 cart).symm
  have b4 : 2 ^ 31 * cart + (2 ^ 15 * frame + resv) < 2 ^ 47 := by omega
  have s3 : 2 ^ 47 * rt ||| (2 ^ 31 * cart + (2 ^ 15 * frame + resv)) =
      2 ^ 47 * rt + (2 ^ 31 * cart + (2 ^ 15 * frame + resv)) :=
    (Nat.mul_add_lt_is_or b4 rt).symm
  have b3 : 2 ^ 47 * rt + (2 ^ 31 * cart + (2 ^ 15 * frame + resv)) < 2 ^ 48 := by
    omega
  have s2 : 2 ^ 48 * ky2 |||
      (2 ^ 47 * rt + (2 ^ 31 * cart + (2 ^ 15 * frame + resv))) =
      2 ^ 48 * ky2 + (2 ^ 47 * rt + (2 ^ 31 * cart + (2 ^ 15 * frame + resv))) :=
    (Nat.mul_add_lt_is_or b3 ky2).symm
  have b2 : 2 ^ 48 * ky2 +
      (2 ^ 47 * rt + (2 ^ 31 * cart + (2 ^ 15 * frame + resv))) < 2 ^ 56 := by
    omega
  have s1 : 2 ^ 56 * ky1 |||
      (2 ^ 48 * ky2 + (2 ^ 47 * rt + (2 ^ 31 * cart + (2 ^ 15 * frame + resv)))) =
      2 ^ 56 * ky1 +
      (2 ^ 48 * ky2 + (2 ^ 47 * rt + (2 ^ 31 * cart + (2 ^ 15 * frame + resv)))) :=
    (Nat.mul_add_lt_is_or b2 ky1).symm
  calc create_cart_opcode ky1 ky2 rt cart frame resv
      = 2 ^ 56 * ky1 ||| (2 ^ 48 * ky2 ||| (2 ^ 47 * rt |||
          (2 ^ 31 * cart ||| (2 ^ 15 * frame ||| resv)))) := by
        simp only [create_cart_opcode, e1, e2, e3, e4, e5, e6, Nat.or_assoc]
    _ = ky1 * 2 ^ 56 + ky2 * 2 ^ 48 + rt * 2 ^ 47 + cart * 2 ^ 31 +
          frame * 2 ^ 15 + resv := by
        rw [s5, s4, s3, s2, s1]; ring

/-- C3 (confirmed): for every valid field tuple (command and secondary key
below 2 ^ 8, return flag below 2, cartridge and frame below 2 ^ 16,
reserved below 2 ^ 15), extracting any of the five named register fields
from the register built by create_cart_opcode returns the original value
of that field. -/
theorem opcode_roundtrip (ky1 ky2 rt cart frame resv : Nat)
    (h1 : ky1 < 2 ^ 8) (h2 : ky2 < 2 ^ 8) (h3 : rt < 2)
    (h4 : cart < 2 ^ 16) (h5 : frame < 2 ^ 16) (h6 : resv < 2 ^ 15) :
    extract_cart_opcode (create_cart_opcode ky1 ky2 rt cart frame resv) .KY1 = ky1 ∧
    extract_cart_opcode (create_cart_opcode ky1 ky2 rt cart frame resv) .KY2 = ky2 ∧
    extract_cart_opcode (create_cart_opcode ky1 ky2 rt cart frame resv) .RT1 = rt ∧
    extract_cart_opcode (create_cart_opcode ky1 ky2 rt cart frame resv) .CT1 = cart ∧
    extract_cart_opcode (create_cart_opcode ky1 ky2 rt cart frame resv) .FM1 = frame := by
  rw [create_cart_opcode_eq_sum ky1 ky2 rt cart frame resv h1 h2 h3 h4 h5 h6]
  have hff : (0xFF : Nat) = 2 ^ 8 - 1 := by norm_num
  have h01 : (0x01 : Nat) = 2 ^ 1 - 1 := by norm_num
  have hffff : (0xFFFF : Nat) = 2 ^ 16 - 1 := by norm_num
  refine ⟨?_, ?_, ?_, ?_, ?_⟩
  · rw [show ∀ x, extract_cart_opcode x .KY1 = x >>> 56 from fun _ => rfl,
      Nat.shiftRight_eq_div_pow]
    omega
  · rw [show ∀ x, extract_cart_opcode x .KY2 = (x >>> 48) &&& 0xFF from fun _ => rfl,
      hff, Nat.and_pow_two_sub_one_eq_mod, Nat.shiftRight_eq_div_pow]
    omega
  · rw [show ∀ x, extract_cart_opcode x .RT1 = (x >>> 47) &&& 0x01 from fun _ => rfl,
      h01, Nat.and_pow_two_sub_one_eq_mod, Nat.shiftRight_eq_div_pow]
    omega
  · rw [show ∀ x, extract_cart_opcode x .CT1 = (x >>> 31) &&& 0xFFFF from fun _ => rfl,
      hffff, Nat.and_pow_two_sub_one_eq_mod, Nat.shiftRight_eq_div_pow]
    omega
  · rw [show ∀ x, extract_cart_opcode x .FM1 = (x >>> 15) &&& 0xFFFF from fun _ => rfl,
      hffff, Nat.and_pow_two_sub_one_eq_mod, Nat.shiftRight_eq_div_pow]
    omega

/-- Concrete instantiation of the codec round-trip at the tuple
(1, 2, 1, 3, 4, 5). -/
theorem opcode_roundtrip_witness :
    extract_cart_opcode (create_cart_opcode 1 2 1 3 4 5) .KY1 = 1 ∧
    extract_cart_opcode (create_cart_opcode 1 2 1 3 4 5) .KY2 = 2 ∧
    extract_cart_opcode (create_cart_opcode 1 2 1 3 4 5) .RT1 = 1 ∧
    extract_cart_opcode (create_cart_opcode 1 2 1 3 4 5) .CT1 = 3 ∧
    extract_cart_opcode (create_cart_opcode 1 2 1 3 4 5) .FM1 = 4 :=
  opcode_roundtrip 1 2 1 3 4 5 (by norm_num) (by norm_num) (by norm_num)
    (by norm_num) (by norm_num) (by norm_num)

/-! ## Frame cache (cart_cache.c) -/

/-- One frame of zero bytes; the initial content of every buffer the C code
clears or calloc-allocates. -/
def zeroFrame : List Nat := List.replicate CART_FRAME_SIZE 0

/-- C strlen on a byte buffer: the number of bytes before the first zero
byte (the C code reads on until it meets a zero; a buffer given without one
ends the scan at the end of the modelled list). -/
def cstrlen (l : List Nat) : Nat := (l.takeWhile (fun b => b != 0)).length

/-- C strncpy of src into a destination window of n bytes: copies bytes of
src up to its first zero byte, zero-fills the rest of the window. -/
def strncpyList (src : List Nat) (n : Nat) : List Nat :=
  let k := min (cstrlen src) n
  src.take k ++ List.replicate (n - k) 0

/-- C memcpy of cnt bytes of src into dst at offset off (buffers as lists). -/
def memcpyList (dst : List Nat) (off : Nat) (src : List Nat) (cnt : Nat) :
    List Nat :=
  dst.take off ++ src.take cnt ++ dst.drop (off + cnt)

/-- Embedding of create_cache_tag (cart_cache.c, lines 369 to 381): packs
the 16-bit cartridge index into the high half and the 16-bit frame index
into the low half of a 32-bit tag.  The remainders model the uint16_t
parameter types CartridgeIndex and CartFrameIndex. -/
def create_cache_tag (cart frame : Nat) : Nat :=
  ((cart % 2 ^ 16) <<< 16) ||| (frame % 2 ^ 16)

/-- One slot of the cache table (struct CacheTable of cart_cache.c). -/
structure CacheSlot where
  cachedFrame : List Nat
  cacheHandle : Nat
  cartIndex : Nat
  frameIndex : Nat
  isUsed : Bool
  lru : Int
deriving Repr, DecidableEq

/-- The freshly wiped slot state that init_cart_cache and delete_cart_cache
write (zero frame, zero metadata, unused, lru counter -1). -/
def emptyCacheSlot : CacheSlot :=
  { cachedFrame := zeroFrame, cacheHandle := 0, cartIndex := 0,
    frameIndex := 0, isUsed := false, lru := -1 }

/-- The cache globals of cart_cache.c: cacheMemory (as a total function over
slot indices; only indices below size are ever scanned), cacheSize,
lruCounter and last_cached_frame. -/
structure CacheState where
  size : Nat
  slots : Nat → CacheSlot
  lruCounter : Int
  lastEvicted : List Nat

/-- Embedding of init_cart_cache (cart_cache.c, lines 106 to 141) for a
configured size: every slot zeroed and marked unused, counter zero. -/
def init_cart_cache (size : Nat) : CacheState :=
  { size := size, slots := fun _ => emptyCacheSlot, lruCounter := 0,
    lastEvicted := zeroFrame }

/-- The scan for an unused slot inside put_cart_cache: first index in slot
order whose isUsed flag is clear. -/
def findFreeCacheSlot (s : CacheState) : Option Nat :=
  (List.range s.size).find? (fun i => (s.slots i).isUsed == false)

/-- The eviction scan of put_cart_cache (cart_cache.c, lines 229 to 240):
starts from slot 0 and keeps the first slot with a strictly smaller lru
counter, recording its lru value, cartridge and frame. -/
def cacheVictimScan (s : CacheState) : Int × Nat × Nat :=
  (List.range s.size).foldl
    (fun best i =>
      if (s.slots i).lru < best.1 then
        ((s.slots i).lru, (s.slots i).cartIndex, (s.slots i).frameIndex)
      else best)
    ((s.slots 0).lru, (s.slots 0).cartIndex, (s.slots 0).frameIndex)

/-- Embedding of get_cart_cache (cart_cache.c, lines 270 to 293): bumps the
global counter, then returns the frame of the first slot whose stored tag
equals the requested tag, refreshing that slot's lru counter; the scan does
not consult the isUsed flag. -/
def get_cart_cache (s : CacheState) (cart frm : Nat) :
    Option (List Nat) × CacheState :=
  let s1 : CacheState := { s with lruCounter := s.lruCounter + 1 }
  let tag := create_cache_tag cart frm
  match (List.range s1.size).find? (fun i => (s1.slots i).cacheHandle == tag) with
  | some i =>
      (some (s1.slots i).cachedFrame,
       { s1 with slots := fun j =>
          if j = i then { s1.slots i with lru := s1.lruCounter }
          else s1.slots j })
  | none => (none, s1)

/-- Embedding of delete_cart_cache (cart_cache.c, lines 306 to 340): bumps
the counter, wipes the first slot whose stored tag matches, saves its frame
in last_cached_frame and returns it; absent tags give back none (NULL). -/
def delete_cart_cache (s : CacheState) (cart blk : Nat) :
    Option (List Nat) × CacheState :=
  let s1 : CacheState := { s with lruCounter := s.lruCounter + 1 }
  let tag := create_cache_tag cart blk
  match (List.range s1.size).find? (fun i => (s1.slots i).cacheHandle == tag) with
  | some i =>
      let ev := (s1.slots i).cachedFrame
      (some ev,
       { s1 with lastEvicted := ev,
                 slots := fun j => if j = i then emptyCacheSlot else s1.slots j })
  | none => (none, s1)

/-- Writing a new entry into slot i, as the placement branch of
put_cart_cache does (strncpy of the buffer, tag, address, used flag, lru
set to the current global counter). -/
def placeCacheEntry (s : CacheState) (i : Nat) (cart frm : Nat)
    (buf : List Nat) : CacheState :=
  { s with slots := fun j =>
      if j = i then
        { cachedFrame := strncpyList buf CART_FRAME_SIZE,
          cacheHandle := create_cache_tag cart frm,
          cartIndex := cart, frameIndex := frm,
          isUsed := true, lru := s.lruCounter }
      else s.slots j }

/-- Embedding of put_cart_cache (cart_cache.c, lines 194 to 257): bump the
counter; place into the first unused slot if one exists; otherwise (unless
the size is zero) evict the scanned victim through delete_cart_cache and
place into the slot this frees.  A failing delete propagates -1.  After a
successful delete a free slot always exists, so the C retry loop runs at
most twice; the final -1 arm is that unreachable third pass. -/
def put_cart_cache (s : CacheState) (cart frm : Nat) (buf : List Nat) :
    Int × CacheState :=
  let s1 : CacheState := { s with lruCounter := s.lruCounter + 1 }
  match findFreeCacheSlot s1 with
  | some i => (0, placeCacheEntry s1 i cart frm buf)
  | none =>
    if s1.size = 0 then (0, s1)
    else
      let v := cacheVictimScan s1
      match delete_cart_cache s1 v.2.1 v.2.2 with
      | (some _, s2) =>
          match findFreeCacheSlot s2 with
          | some i => (0, placeCacheEntry s2 i cart frm buf)
          | none => (-1, s2)
      | (none, s2) => (-1, s2)

/-! ## Helper lemmas on scans over index ranges -/

/-- A range scan returns the least index satisfying the predicate. -/
theorem find?_range_eq_some_of {p : Nat → Bool} {n k : Nat} (hk : k < n)
    (hpk : p k = true) (hlt : ∀ i < k, p i = false) :
    (List.range n).find? p = some k := by
  induction n with
  | zero => omega
  | succ m ih =>
    rw [List.range_succ, List.find?_append]
    rcases Nat.lt_or_ge k m with h | h
    · rw [ih h]; rfl
    · have hk' : k = m := by omega
      have hnone : (List.range m).find? p = none := by
        rw [List.find?_eq_none]
        intro x hx
        have hxm := List.mem_range.mp hx
        simp [hlt x (by omega)]
      have hpm : p m = true := hk' ▸ hpk
      rw [hnone, hk', List.find?_cons_of_pos _ hpm]
      rfl

/-- A range scan over an everywhere-false predicate finds nothing. -/
theorem find?_range_eq_none_of {p : Nat → Bool} {n : Nat}
    (h : ∀ i < n, p i = false) : (List.range n).find? p = none := by
  rw [List.find?_eq_none]
  intro x hx
  simp [h x (List.mem_range.mp hx)]

/-- The least index attaining the minimum of f over the indices 0..n. -/
def argminUpTo (f : Nat → Int) : Nat → Nat
  | 0 => 0
  | n + 1 => if f (n + 1) < f (argminUpTo f n) then n + 1 else argminUpTo f n

theorem argminUpTo_le (f : Nat → Int) (n : Nat) : argminUpTo f n ≤ n := by
  induction n with
  | zero => simp [argminUpTo]
  | succ m ih =>
    rw [argminUpTo]
    split
    · exact Nat.le_refl _
    · omega

theorem argminUpTo_min (f : Nat → Int) (n : Nat) :
    ∀ j ≤ n, f (argminUpTo f n) ≤ f j := by
  induction n with
  | zero =>
    intro j hj
    simp [Nat.le_zero.mp hj, argminUpTo]
  | succ m ih =>
    intro j hj
    rw [argminUpTo]
    rcases Nat.lt_or_ge j (m + 1) with h | h
    · have hj' : j ≤ m := by omega
      split
      · exact le_of_lt (lt_of_lt_of_le (by assumption) (ih j hj'))
      · exact ih j hj'
    · have hj' : j = m + 1 := by omega
      subst hj'
      split
      · exact le_refl _
      · omega
  
theorem argminUpTo_first (f : Nat → Int) (n : Nat) :
    ∀ j < argminUpTo f n, f (argminUpTo f n) < f j := by
  induction n with
  | zero => simp [argminUpTo]
  | succ m ih =>
    intro j hj
    rw [argminUpTo] at hj ⊢
    by_cases h : f (m + 1) < f (argminUpTo f m)
    · rw [if_pos h] at hj ⊢
      have hj' : j ≤ m := by omega
      exact lt_of_lt_of_le h (argminUpTo_min f m j hj')
    · rw [if_neg h] at hj ⊢
      exact ih j hj

/-- The victim scan of put_cart_cache computes the fields of the slot at
the least index attaining the minimal lru counter. -/
theorem foldl_minScan (F : Nat → Int × Nat × Nat) (m : Nat) :
    (List.range (m + 1)).foldl
      (fun best i => if (F i).1 < best.1 then F i else best) (F 0) =
      F (argminUpTo (fun i => (F i).1) m) := by
  induction m with
  | zero => simp [List.range_succ, argminUpTo]
  | succ m ih =>
    rw [List.range_succ, List.foldl_append, ih]
    simp only [List.foldl_cons, List.foldl_nil, argminUpTo]
    by_cases h : (F (m + 1)).1 < (F (argminUpTo (fun i => (F i).1) m)).1
    · simp [h]
    · simp [h]

theorem cacheVictimScan_eq (s : CacheState) (hsz : 0 < s.size) :
    cacheVictimScan s =
      ((s.slots (argminUpTo (fun i => (s.slots i).lru) (s.size - 1))).lru,
       (s.slots (argminUpTo (fun i => (s.slots i).lru) (s.size - 1))).cartIndex,
       (s.slots (argminUpTo (fun i => (s.slots i).lru) (s.size - 1))).frameIndex) := by
  obtain ⟨m, hm⟩ : ∃ m, s.size = m + 1 := ⟨s.size - 1, by omega⟩
  have := foldl_minScan
    (fun i => ((s.slots i).lru, (s.slots i).cartIndex, (s.slots i).frameIndex)) m
  rw [cacheVictimScan, hm]
  simpa using this

/-- When every slot is occupied and the stored tags are consistent and
pairwise distinct, put_cart_cache evicts exactly the slot with the
globally smallest recency counter, ties broken by lowest slot index, and
places the new entry there with the bumped counter. -/
theorem put_full_cache_evicts_lru (s : CacheState) (cart frm : Nat)
    (buf : List Nat) (hsz : 0 < s.size)
    (hall : ∀ i < s.size, (s.slots i).isUsed = true)
    (htag : ∀ i < s.size, (s.slots i).cacheHandle =
      create_cache_tag (s.slots i).cartIndex (s.slots i).frameIndex)
    (hinj : ∀ i < s.size, ∀ j < s.size,
      (s.slots i).cacheHandle = (s.slots j).cacheHandle → i = j) :
    ∃ k, k < s.size ∧
      (∀ j < s.size, (s.slots k).lru ≤ (s.slots j).lru) ∧
      (∀ j < k, (s.slots k).lru < (s.slots j).lru) ∧
      put_cart_cache s cart frm buf =
        (0, { size := s.size,
              slots := fun j =>
                if j = k then
                  { cachedFrame := strncpyList buf CART_FRAME_SIZE,
                    cacheHandle := create_cache_tag cart frm,
                    cartIndex := cart, frameIndex := frm,
                    isUsed := true, lru := s.lruCounter + 2 }
                else s.slots j,
              lruCounter := s.lruCounter + 2,
              lastEvicted := (s.slots k).cachedFrame }) := by
  set g : Nat → Int := fun i => (s.slots i).lru with hg
  set k : Nat := argminUpTo g (s.size - 1) with hkdef
  have hk : k < s.size := lt_of_le_of_lt (argminUpTo_le g (s.size - 1)) (by omega)
  refine ⟨k, hk, ?_, ?_, ?_⟩
  · intro j hj
    exact argminUpTo_min g (s.size - 1) j (by omega)
  · intro j hj
    exact argminUpTo_first g (s.size - 1) j hj
  · -- evaluate put_cart_cache step by step
    have hfree1 : findFreeCacheSlot { s with lruCounter := s.lruCounter + 1 } = none := by
      apply find?_range_eq_none_of
      intro i hi
      simp [hall i hi]
    have hvict : cacheVictimScan { s with lruCounter := s.lruCounter + 1 } =
        ((s.slots k).lru, (s.slots k).cartIndex, (s.slots k).frameIndex) :=
      cacheVictimScan_eq _ hsz
    have htagk : create_cache_tag (s.slots k).cartIndex (s.slots k).frameIndex =
        (s.slots k).cacheHandle := (htag k hk).symm
    have hdelfind : (List.range s.size).find?
        (fun i => (s.slots i).cacheHandle ==
          create_cache_tag (s.slots k).cartIndex (s.slots k).frameIndex) = some k := by
      apply find?_range_eq_some_of hk
      · simp [htagk]
      · intro i hi
        simp only [htagk, beq_eq_false_iff_ne, ne_eq]
        intro he
        exact absurd (hinj i (by omega) k hk he) (by omega)
    have hfree2 : findFreeCacheSlot
        { s with lruCounter := s.lruCounter + 1 + 1,
                 lastEvicted := (s.slots k).cachedFrame,
                 slots := fun j => if j = k then emptyCacheSlot else s.slots j } =
        some k := by
      apply find?_range_eq_some_of hk
      · simp [emptyCacheSlot]
      · intro i hi
        simp [show i ≠ k by omega, hall i (by omega)]
    simp only [put_cart_cache, hfree1]
    rw [if_neg (by omega)]
    simp only [hvict, delete_cart_cache]
    rw [hdelfind]
    simp only [hfree2]
    simp only [placeCacheEntry, Prod.mk.injEq, CacheState.mk.injEq, true_and]
    refine ⟨?_, by omega, trivial⟩
    funext j
    by_cases hj : j = k
    · simp only [hj, if_true, eq_self_iff_true, CacheSlot.mk.injEq]
      simp only [true_and]
      omega
    · simp [hj]

set_option maxRecDepth 16384 in
/-- C4 (confirmed): the capacity-2 scenario put(0,0,A); put(0,1,B);
get(0,0); put(0,2,C) evicts the entry for address (0,1) (B refreshed A was
not), leaving exactly the entries for (0,0) and (0,2); and in general a
put that finds no free slot evicts the occupied entry with the smallest
recency counter, ties broken by lowest slot index. -/
theorem cache_lru_eviction :
    ((put_cart_cache (get_cart_cache
        (put_cart_cache (put_cart_cache (init_cart_cache 2) 0 0 [65]).2
          0 1 [66]).2 0 0).2 0 2 [67]).1 = 0 ∧
     ((put_cart_cache (get_cart_cache
        (put_cart_cache (put_cart_cache (init_cart_cache 2) 0 0 [65]).2
          0 1 [66]).2 0 0).2 0 2 [67]).2.slots 0) =
        { cachedFrame := strncpyList [65] CART_FRAME_SIZE,
          cacheHandle := create_cache_tag 0 0, cartIndex := 0,
          frameIndex := 0, isUsed := true, lru := 3 } ∧
     ((put_cart_cache (get_cart_cache
        (put_cart_cache (put_cart_cache (init_cart_cache 2) 0 0 [65]).2
          0 1 [66]).2 0 0).2 0 2 [67]).2.slots 1) =
        { cachedFrame := strncpyList [67] CART_FRAME_SIZE,
          cacheHandle := create_cache_tag 0 2, cartIndex := 0,
          frameIndex := 2, isUsed := true, lru := 5 } ∧
     (put_cart_cache (get_cart_cache
        (put_cart_cache (put_cart_cache (init_cart_cache 2) 0 0 [65]).2
          0 1 [66]).2 0 0).2 0 2 [67]).2.lastEvicted =
        strncpyList [66] CART_FRAME_SIZE ∧
     ∀ i < 2, ((put_cart_cache (get_cart_cache
        (put_cart_cache (put_cart_cache (init_cart_cache 2) 0 0 [65]).2
          0 1 [66]).2 0 0).2 0 2 [67]).2.slots i).cacheHandle ≠
        create_cache_tag 0 1) ∧
    (∀ (s : CacheState) (cart frm : Nat) (buf : List Nat),
      0 < s.size →
      (∀ i < s.size, (s.slots i).isUsed = true) →
      (∀ i < s.size, (s.slots i).cacheHandle =
        create_cache_tag (s.slots i).cartIndex (s.slots i).frameIndex) →
      (∀ i < s.size, ∀ j < s.size,
        (s.slots i).cacheHandle = (s.slots j).cacheHandle → i = j) →
      ∃ k, k < s.size ∧
        (∀ j < s.size, (s.slots k).lru ≤ (s.slots j).lru) ∧
        (∀ j < k, (s.slots k).lru < (s.slots j).lru) ∧
        put_cart_cache s cart frm buf =
          (0, { size := s.size,
                slots := fun j =>
                  if j = k then
                    { cachedFrame := strncpyList buf CART_FRAME_SIZE,
                      cacheHandle := create_cache_tag cart frm,
                      cartIndex := cart, frameIndex := frm,
                      isUsed := true, lru := s.lruCounter + 2 }
                  else s.slots j,
                lruCounter := s.lruCounter + 2,
                lastEvicted := (s.slots k).cachedFrame })) :=
  ⟨by decide, put_full_cache_evicts_lru⟩

/-- Fully occupied single-slot cache used to instantiate the general LRU
eviction statement of the C4 theorem. -/
def lruWitnessState : CacheState :=
  { size := 1,
    slots := fun _ =>
      { cachedFrame := zeroFrame, cacheHandle := create_cache_tag 0 0,
        cartIndex := 0, frameIndex := 0, isUsed := true, lru := 7 },
    lruCounter := 10, lastEvicted := zeroFrame }

/-- Concrete instantiation of the general LRU eviction statement on a full
one-slot cache. -/
theorem cache_lru_eviction_witness :
    ∃ k, k < lruWitnessState.size ∧
      (∀ j < lruWitnessState.size,
        (lruWitnessState.slots k).lru ≤ (lruWitnessState.slots j).lru) ∧
      (∀ j < k, (lruWitnessState.slots k).lru < (lruWitnessState.slots j).lru) ∧
      put_cart_cache lruWitnessState 0 5 [9] =
        (0, { size := lruWitnessState.size,
              slots := fun j =>
                if j = k then
                  { cachedFrame := strncpyList [9] CART_FRAME_SIZE,
                    cacheHandle := create_cache_tag 0 5,
                    cartIndex := 0, frameIndex := 5,
                    isUsed := true, lru := lruWitnessState.lruCounter + 2 }
                else lruWitnessState.slots j,
              lruCounter := lruWitnessState.lruCounter + 2,
              lastEvicted := (lruWitnessState.slots k).cachedFrame }) :=
  cache_lru_eviction.2 lruWitnessState 0 5 [9] (by decide) (by decide)
    (by decide) (by decide)

set_option maxRecDepth 16384 in
/-- C8 (code bug evidence): on a freshly initialized capacity-2 cache,
every slot is unoccupied and nothing was ever stored, yet get(0,0) returns
a (zeroed) frame instead of absent: the lookup scan compares stored tags
only, never the isUsed flag, and a wiped slot's zero handle equals the tag
of address (0,0). -/
theorem get_cart_cache_fresh_false_hit :
    (∀ i < 2, ((init_cart_cache 2).slots i).isUsed = false) ∧
    (get_cart_cache (init_cart_cache 2) 0 0).1 = some zeroFrame := by
  decide

/-! ## Transport client (cart_client.c) -/

/-- One socket operation the client performs during an exchange: writing or
reading the given number of bytes on the stream connection. -/
inductive SockOp where
  | send (bytes : Nat)
  | recv (bytes : Nat)
deriving DecidableEq, Repr

/-- Embedding of the I/O sequence of client_cart_bus_request
(cart_client.c, lines 88 to 452) for one exchange, assuming every socket
call transfers its full size: dispatches on the KY1 command byte of the
request register; v is the inbound payload length announced by the
response.  Every command sends the 8-byte register and an 8-byte length
field; the WRFRME arm then performs a CART_FRAME_SIZE read on the socket
(cart_client.c line 327) before receiving the response register and
length, exactly as the source is written. -/
def clientExchangeOps (reg : Nat) (v : Nat) : List SockOp :=
  let request := extract_cart_opcode reg .KY1
  if request = CART_OP_INITMS then
    [.send 8, .send 8, .recv 8, .recv 8]
  else if request = CART_OP_BZERO then
    [.send 8, .send 8, .recv 8, .recv 8]
  else if request = CART_OP_LDCART then
    [.send 8, .send 8, .recv 8, .recv 8]
  else if request = CART_OP_RDFRME then
    [.send 8, .send 8, .recv 8, .recv 8] ++
      (if v > 0 then [.recv CART_FRAME_SIZE] else [])
  else if request = CART_OP_WRFRME then
    [.send 8, .send 8, .recv CART_FRAME_SIZE, .recv 8, .recv 8] ++
      (if v > 0 then [.recv CART_FRAME_SIZE] else [])
  else if request = CART_OP_POWOFF then
    [.send 8, .send 8, .recv 8, .recv 8] ++
      (if v > 0 then [.recv CART_FRAME_SIZE] else [])
  else
    [.send 8, .send 8, .recv 8, .recv 8] ++
      (if v > 0 then [.recv CART_FRAME_SIZE] else [])

/-- Total bytes handed to write() during an exchange. -/
def clientBytesSent (reg v : Nat) : Nat :=
  ((clientExchangeOps reg v).map
    (fun op => match op with | .send n => n | .recv _ => 0)).sum

/-- C2 (code bug evidence): for every WRITE-FRAME exchange (any register
whose command byte is CART_OP_WRFRME and any announced inbound length),
the client sends the 8-byte register and an 8-byte length field and then
performs a CART_FRAME_SIZE read on the connection in the payload position,
so only 16 bytes are ever written and no payload byte from the caller's
buffer is sent; the claim says the third step sends frame-size payload
bytes from the buffer. -/
theorem client_wrfrme_payload_is_read (ky2 rt cart frame resv v : Nat)
    (h2 : ky2 < 2 ^ 8) (h3 : rt < 2) (h4 : cart < 2 ^ 16)
    (h5 : frame < 2 ^ 16) (h6 : resv < 2 ^ 15) :
    (clientExchangeOps
        (create_cart_opcode CART_OP_WRFRME ky2 rt cart frame resv) v).take 3 =
      [.send 8, .send 8, .recv CART_FRAME_SIZE] ∧
    clientBytesSent (create_cart_opcode CART_OP_WRFRME ky2 rt cart frame resv) v
      = 16 := by
  have hk : extract_cart_opcode
      (create_cart_opcode CART_OP_WRFRME ky2 rt cart frame resv) .KY1 =
      CART_OP_WRFRME :=
    (opcode_roundtrip CART_OP_WRFRME ky2 rt cart frame resv (by decide) h2
      h3 h4 h5 h6).1
  have hops : clientExchangeOps
      (create_cart_opcode CART_OP_WRFRME ky2 rt cart frame resv) v =
      [.send 8, .send 8, .recv CART_FRAME_SIZE, .recv 8, .recv 8] ++
        (if v > 0 then [.recv CART_FRAME_SIZE] else []) := by
    rw [clientExchangeOps]
    simp only [hk]
    norm_num [CART_OP_WRFRME, CART_OP_INITMS, CART_OP_BZERO, CART_OP_LDCART,
      CART_OP_RDFRME]
  refine ⟨?_, ?_⟩
  · rw [hops]; rfl
  · rw [clientBytesSent, hops]
    by_cases hv : v > 0 <;> simp [hv]

/-- Concrete instantiation of the WRITE-FRAME exchange shape at frame 17,
all other fields 0, inbound length 0. -/
theorem client_wrfrme_payload_is_read_witness :
    (clientExchangeOps (create_cart_opcode CART_OP_WRFRME 0 0 0 17 0) 0).take 3 =
      [.send 8, .send 8, .recv CART_FRAME_SIZE] ∧
    clientBytesSent (create_cart_opcode CART_OP_WRFRME 0 0 0 17 0) 0 = 16 :=
  client_wrfrme_payload_is_read 0 0 0 17 0 0 (by decide) (by decide) (by decide)
    (by decide) (by decide)

/-! ## File store and allocation table (cart_driver.c) -/

/-- One slot of the frame allocation table (struct FileTable). -/
structure TableEntry where
  filehandle : Int
  isused : Bool
deriving Repr, DecidableEq

/-- One entry of the file system table (struct FileSystem); filenames are
modelled as Lean strings, the strncmp with strlen(path) + 1 characters the
source performs being exact string equality on NUL-terminated names. -/
structure FileEntry where
  filename : String
  filehandle : Int
  fileposition : Nat
  filelength : Nat
  cartIndex : Nat
  frameIndex : Nat
  openfile : Bool
  incart : Bool
deriving Repr, DecidableEq

/-- The reset entry written by cart_poweron and allocateNewFile.  Note that
cart_close and cart_open write every field of this except incart, which
they leave untouched. -/
def emptyFileEntry : FileEntry :=
  { filename := "", filehandle := -1, fileposition := 0, filelength := 0,
    cartIndex := 0, frameIndex := 0, openfile := false, incart := false }

/-- Modelled from the spec: the CART device collaborator of section 6.  It
keeps the currently loaded cartridge and the frame contents per cartridge;
the transport that carries the exchanges is outside the shallow embedding
(and its client is settled separately under claim C2). -/
structure Device where
  loaded : Nat
  frames : Nat → Nat → List Nat

/-- Modelled from the spec: one request/response exchange with the CART
device.  LOAD selects a cartridge, READ-FRAME returns the addressed frame
of the loaded cartridge, WRITE-FRAME replaces it with the outbound buffer,
ZERO-CARTRIDGE clears the loaded cartridge; the response register of a
successful exchange has a clear return flag (register value 0). -/
def busRequest (d : Device) (reg : Nat) (buf : List Nat) :
    Nat × Device × List Nat :=
  let ky1 := extract_cart_opcode reg .KY1
  if ky1 = CART_OP_LDCART then
    (0, { d with loaded := extract_cart_opcode reg .CT1 }, buf)
  else if ky1 = CART_OP_RDFRME then
    (0, d, d.frames d.loaded (extract_cart_opcode reg .FM1))
  else if ky1 = CART_OP_WRFRME then
    (0, { d with frames := fun c f =>
            if c = d.loaded ∧ f = extract_cart_opcode reg .FM1 then buf
            else d.frames c f }, buf)
  else if ky1 = CART_OP_BZERO then
    (0, { d with frames := fun c f =>
            if c = d.loaded then zeroFrame else d.frames c f }, buf)
  else (0, d, buf)

theorem busRequest_fst (d : Device) (reg : Nat) (buf : List Nat) :
    (busRequest d reg buf).1 = 0 := by
  unfold busRequest
  dsimp only
  split_ifs <;> rfl

/-- Embedding of load_this_cart (cart_driver.c, lines 914 to 925). -/
def load_this_cart (d : Device) (cart : Nat) : Int × Device :=
  let r := busRequest d (create_cart_opcode CART_OP_LDCART 0 0 cart 0 0) zeroFrame
  if extract_cart_opcode r.1 .RT1 ≠ 0 then (-1, r.2.1) else (0, r.2.1)

/-- The process-wide mutable state of the driver: the file system list
(numFiles is its length), the allocation table, the cache and the device. -/
structure CartState where
  files : List FileEntry
  table : Nat → Nat → TableEntry
  cache : CacheState
  dev : Device

/-- Reading fileSystem[fd]; out-of-range handles read as an unused entry. -/
def fileAt (s : CartState) (fd : Nat) : FileEntry :=
  s.files.getD fd emptyFileEntry

/-- The row-major slot order of the nested cartridge/frame scan loops in
cart_driver.c (cartridge-major, frame-minor). -/
def gridIndices : List (Nat × Nat) :=
  (List.range CART_MAX_CARTRIDGES).flatMap
    (fun c => (List.range CART_CARTRIDGE_SIZE).map (fun f => (c, f)))

/-- The first-free-slot scan of cart_write (both regimes). -/
def findFirstFree (t : Nat → Nat → TableEntry) : Option (Nat × Nat) :=
  gridIndices.find? (fun p => (t p.1 p.2).isused == false)

/-- The free-slot count scan of check_table_space. -/
def freeSlotCount (t : Nat → Nat → TableEntry) : Nat :=
  gridIndices.countP (fun p => (t p.1 p.2).isused == false)

/-- The slots owned by handle fd in scan order, as collected by
get_file_pieces (cart_driver.c, lines 977 to 1000). -/
def filePieces (t : Nat → Nat → TableEntry) (fd : Nat) : List (Nat × Nat) :=
  gridIndices.filter
    (fun p => ((t p.1 p.2).filehandle == (fd : Int)) && (t p.1 p.2).isused)

/-- Embedding of get_num_pieces (cart_driver.c, lines 1006 to 1029). -/
def get_num_pieces (s : CartState) (fd : Nat) : Int :=
  if (fileAt s fd).filelength < 1 then -1
  else ((filePieces s.table fd).length : Int)

/-- Embedding of get_file_pieces (cart_driver.c, lines 963 to 1004);
none models the NULL return for a file without content. -/
def get_file_pieces (s : CartState) (fd : Nat) : Option (List (Nat × Nat)) :=
  if (fileAt s fd).filelength < 1 then none
  else some (filePieces s.table fd)

/-- Embedding of check_table_space (cart_driver.c, lines 927 to 961): no
check when the write stays inside the current length; otherwise compares
ceil((filelength + count) / CART_FRAME_SIZE) against the free-slot count. -/
def check_table_space (s : CartState) (fd : Nat) (count : Nat) : Int :=
  let e := fileAt s fd
  if e.filelength ≥ e.fileposition + count then 0
  else
    let tot := e.filelength + count
    let needed := (tot + CART_FRAME_SIZE - 1) / CART_FRAME_SIZE
    if needed > freeSlotCount s.table then -1 else 0

/-- Marking one table slot used by fd, as the write loops do. -/
def tableSet (t : Nat → Nat → TableEntry) (p : Nat × Nat) (fd : Nat) :
    Nat → Nat → TableEntry :=
  fun c f => if c = p.1 ∧ f = p.2 then { filehandle := (fd : Int), isused := true }
             else t c f

/-- Clearing the isused flag of a slot (the readback phase of a successive
write does this, keeping the stored handle). -/
def tableSetUnused (t : Nat → Nat → TableEntry) (p : Nat × Nat) :
    Nat → Nat → TableEntry :=
  fun c f => if c = p.1 ∧ f = p.2 then { t c f with isused := false } else t c f

/-- Embedding of cart_seek (cart_driver.c, lines 894 to 907): only the
bounds of loc against the entry's length are checked (loc is uint32_t, so
the loc below zero arm of the source condition can never fire); on success
only fileposition changes. -/
def cart_seek (s : CartState) (fd : Nat) (loc : Nat) : Int × CartState :=
  let e := fileAt s fd
  if loc > e.filelength then (-1, s)
  else (0, { s with files := s.files.set fd { e with fileposition := loc } })

/-- Embedding of cart_close (cart_driver.c, lines 364 to 384): an entry
with a non-negative handle and set open flag is reset (incart excepted);
anything else reports failure and changes nothing. -/
def closeResetEntry (e : FileEntry) : FileEntry :=
  { e with
    filename := ""
    filehandle := -1
    fileposition := 0
    filelength := 0
    openfile := false
    cartIndex := 0
    frameIndex := 0 }

def cart_close (s : CartState) (fd : Nat) : Int × CartState :=
  let e := fileAt s fd
  if e.filehandle ≥ 0 ∧ e.openfile = true then
    (0, { s with files := s.files.set fd (closeResetEntry e) })
  else (-1, s)

/-- Result of one pass of the cart_open scan over the file system list. -/
inductive OpenScanResult where
  | dup
  | free (i : Nat)
  | exhausted
deriving Repr, DecidableEq

/-- The scan loop of cart_open (cart_driver.c, lines 319 to 339): in index
order, a filename equal to path reports a duplicate, else the first closed
entry is taken. -/
def openScan (path : String) : List FileEntry → Nat → OpenScanResult
  | [], _ => .exhausted
  | e :: rest, i =>
      if e.filename = path then .dup
      else if e.openfile = false then .free i
      else openScan path rest (i + 1)

/-- The occupation of a scanned free slot by cart_open: every field except
incart is initialized. -/
def occupyEntry (e : FileEntry) (path : String) (i : Nat) : FileEntry :=
  { e with
    filename := path
    filehandle := (i : Int)
    fileposition := 0
    filelength := 0
    openfile := true
    cartIndex := 0
    frameIndex := 0 }

/-- Embedding of cart_open (cart_driver.c, lines 301 to 353): scan; on
exhaustion allocateNewFile appends one reset entry and the goto rescans
(the appended entry is closed, so the second pass always ends). -/
def cart_open (s : CartState) (path : String) : Int × CartState :=
  match openScan path s.files 0 with
  | .dup => (-1, s)
  | .free i =>
      let e := fileAt s i
      ((i : Int), { s with files := s.files.set i (occupyEntry e path i) })
  | .exhausted =>
      let files2 := s.files ++ [emptyFileEntry]
      match openScan path files2 0 with
      | .dup => (-1, { s with files := files2 })
      | .free i =>
          let files3 := files2.set i (occupyEntry (files2.getD i emptyFileEntry) path i)
          ((i : Int), { s with files := files3 })
      | .exhausted => (-1, { s with files := files2 })

/-- The loop-carried locals of the frame reading loop of cart_read. -/
structure ReadLoopState where
  cache : CacheState
  dev : Device
  theCart : Nat
  theFrame : Nat
  buffer : List Nat

/-- One iteration of the cart_read frame loop (cart_driver.c, lines 458 to
516): try the cache first under the current cart/frame locals (the hit
branch does not move them to the current piece); on a miss, load the
piece's cartridge if it differs, read the frame from the device, fail on a
set return flag, and in both branches append strlen-many bytes of the
fetched frame at the iteration's offset of the local file buffer. -/
def readFrameStep (pieces : List (Nat × Nat)) (iteration : Nat)
    (st : ReadLoopState) : Option ReadLoopState :=
  let got := get_cart_cache st.cache st.theCart st.theFrame
  match got.1 with
  | some cbuf =>
      let len := cstrlen cbuf
      some { st with
        cache := got.2
        buffer := memcpyList st.buffer (iteration * CART_FRAME_SIZE) cbuf len }
  | none =>
      let piece := pieces.getD iteration (0, 0)
      let cartdev :=
        if st.theCart ≠ piece.1 then (piece.1, (load_this_cart st.dev piece.1).2)
        else (st.theCart, st.dev)
      let r := busRequest cartdev.2
        (create_cart_opcode CART_OP_RDFRME 0 0 0 piece.2 0) zeroFrame
      if extract_cart_opcode r.1 .RT1 ≠ 0 then none
      else
        let cbuf := r.2.2
        let len := cstrlen cbuf
        some { cache := got.2
               dev := r.2.1
               theCart := cartdev.1
               theFrame := piece.2
               buffer := memcpyList st.buffer (iteration * CART_FRAME_SIZE) cbuf len }

/-- The cart_read frame loop, counting file_frames down to zero. -/
def readFramesLoop (pieces : List (Nat × Nat)) :
    Nat → Nat → ReadLoopState → Option ReadLoopState
  | 0, _, st => some st
  | n + 1, iteration, st =>
      match readFrameStep pieces iteration st with
      | none => none
      | some st2 => readFramesLoop pieces n (iteration + 1) st2

/-- Embedding of cart_read (cart_driver.c, lines 398 to 545).  The result
carries the return code, the post state and the bytes copied to the
caller's buffer.  The local file buffer is a fresh uninitialized VLA in C;
it is modelled as zero bytes, and no settled claim depends on bytes of it
the loop did not overwrite. -/
def cart_read (s : CartState) (fd : Nat) (count : Int) :
    Int × CartState × List Nat :=
  let e := fileAt s fd
  if count < 0 then (-1, s, [])
  else if e.filehandle < 0 ∨ e.openfile = false then (-1, s, [])
  else if ¬(0 < s.files.length ∧ e.filehandle = (fd : Int)) then (-1, s, [])
  else
    match get_file_pieces s fd with
    | none => (-1, s, [])
    | some pieces =>
      let first := pieces.headD (0, 0)
      let dev1 := (load_this_cart s.dev first.1).2
      let st0 : ReadLoopState :=
        { cache := s.cache, dev := dev1, theCart := first.1,
          theFrame := first.2, buffer := List.replicate e.filelength 0 }
      match readFramesLoop pieces pieces.length 0 st0 with
      | none => (-1, s, [])
      | some stf =>
        let s2 : CartState := { s with cache := stf.cache, dev := stf.dev }
        let return_count := e.filelength - e.fileposition
        if count.toNat ≤ e.filelength - e.fileposition then
          let e2 := { e with fileposition := e.fileposition + count.toNat }
          (count, { s2 with files := s2.files.set fd e2 },
           (stf.buffer.drop e.fileposition).take count.toNat)
        else if e.filelength - e.fileposition = 0 then (-1, s2, [])
        else
          let e2 := { e with fileposition := e.filelength }
          ((return_count : Int), { s2 with files := s2.files.set fd e2 },
           (stf.buffer.drop e.fileposition).take return_count)

/-- One table-slot claim plus file-property update of the first-write loop
of cart_write (cart_driver.c, lines 636 to 696), steps 4 to 6. -/
def firstWriteClaimSlot (s : CartState) (fd : Nat) (cur : Nat × Nat)
    (iteration : Nat) : Option CartState :=
  if iteration = 0 then
    let e := fileAt s fd
    let e2 := { e with cartIndex := cur.1, frameIndex := cur.2, incart := true }
    some { s with files := s.files.set fd e2, table := tableSet s.table cur fd }
  else if cur.1 = 0 ∨ cur.2 = 0 then none
  else if cur.1 = CART_MAX_CARTRIDGES ∨ cur.2 = CART_CARTRIDGE_SIZE then none
  else some { s with table := tableSet s.table cur fd }

/-- The first-write loop of cart_write: chunk the user buffer a frame at a
time into the carried cart_buffer (cleared once before the loop, residue
beyond the chunk persisting between iterations), write it through to the
device and the cache at the current free slot, claim the slot, set
position and length to count, and move to the next scanned free slot (the
locals keep their values when the scan finds none). -/
def firstWriteLoop (buf : List Nat) (count fd : Nat) :
    Nat → Nat → Nat × Nat → List Nat → CartState → Int × CartState
  | 0, _, _, _, s => (0, s)
  | counter + 1, iteration, cur, cartBuffer, s =>
      let counter0 := counter + 1
      let chunk := if counter0 ≤ CART_FRAME_SIZE then counter0 else CART_FRAME_SIZE
      let counter2 := if counter0 ≤ CART_FRAME_SIZE then 0 else counter0 - CART_FRAME_SIZE
      let cartBuffer2 :=
        memcpyList cartBuffer 0 (buf.drop (iteration * CART_FRAME_SIZE)) chunk
      let dev2 := (load_this_cart s.dev cur.1).2
      let r := busRequest dev2
        (create_cart_opcode CART_OP_WRFRME 0 0 0 cur.2 0) cartBuffer2
      if extract_cart_opcode r.1 .RT1 ≠ 0 then (-1, { s with dev := r.2.1 })
      else
        let pc := put_cart_cache s.cache cur.1 cur.2 cartBuffer2
        if pc.1 ≠ 0 then (-1, { s with dev := r.2.1, cache := pc.2 })
        else
          let s2 : CartState := { s with dev := r.2.1, cache := pc.2 }
          match firstWriteClaimSlot s2 fd cur iteration with
          | none => (-1, s2)
          | some s3 =>
            let e3 := fileAt s3 fd
            let e4 := { e3 with fileposition := count, filelength := count }
            let s4 : CartState := { s3 with files := s3.files.set fd e4 }
            let cur2 := (findFirstFree s4.table).getD cur
            firstWriteLoop buf count fd counter2 (iteration + 1) cur2 cartBuffer2 s4
  termination_by counter => counter
  decreasing_by
    split <;> (simp only [CART_FRAME_SIZE] at *) <;> omega

/-- The readback phase of a successive write (cart_driver.c, lines 732 to
764): walk the file's pieces, loading cartridges as they change, read each
frame from the device, clear the slot's isused flag, and copy min(counter,
frame size) bytes into the local file buffer; the byte counter is a C int
driven negative by the final subtraction. -/
def readbackLoop (pieces : List (Nat × Nat)) (counter : Int) (iteration : Nat)
    (cur : Nat × Nat) (lbuf : List Nat) (s : CartState) :
    Int × CartState × List Nat × (Nat × Nat) :=
  if h : counter ≤ 0 then (0, s, lbuf, cur)
  else
    let piece := pieces.getD iteration (0, 0)
    let cartdev :=
      if piece.1 ≠ cur.1 then (piece.1, (load_this_cart s.dev piece.1).2)
      else (cur.1, s.dev)
    let r := busRequest cartdev.2
      (create_cart_opcode CART_OP_RDFRME 0 0 0 piece.2 0) zeroFrame
    if extract_cart_opcode r.1 .RT1 ≠ 0 then
      (-1, { s with dev := r.2.1 }, lbuf, (cartdev.1, piece.2))
    else
      let s2 : CartState :=
        { s with dev := r.2.1,
                 table := tableSetUnused s.table (cartdev.1, piece.2) }
      let copyLen := if counter ≥ (CART_FRAME_SIZE : Int)
        then CART_FRAME_SIZE else counter.toNat
      let lbuf2 := memcpyList lbuf (iteration * CART_FRAME_SIZE) r.2.2 copyLen
      readbackLoop pieces (counter - (CART_FRAME_SIZE : Int)) (iteration + 1)
        (cartdev.1, piece.2) lbuf2 s2
  termination_by counter.toNat
  decreasing_by
    simp only [CART_FRAME_SIZE]
    omega

/-- The write-back loop of a successive write (cart_driver.c, lines 796 to
867): clear the cart buffer each iteration, chunk the rebuilt file into
it, write through to device and cache at the current free slot, claim the
slot (iteration 0 also updates the entry's first cart/frame), and rescan
for the next free slot, keeping the locals when none is found.  Unlike the
first-write loop its guard rejects only the slot (0, 0). -/
def writeBackLoop (lbuf : List Nat) (fd : Nat) :
    Nat → Nat → Nat × Nat → CartState → Int × CartState
  | 0, _, _, s => (0, s)
  | counter + 1, iteration, cur, s =>
      let counter0 := counter + 1
      let chunk := if counter0 ≤ CART_FRAME_SIZE then counter0 else CART_FRAME_SIZE
      let counter2 := if counter0 ≤ CART_FRAME_SIZE then 0 else counter0 - CART_FRAME_SIZE
      let cartBuffer :=
        memcpyList zeroFrame 0 (lbuf.drop (iteration * CART_FRAME_SIZE)) chunk
      let dev2 := (load_this_cart s.dev cur.1).2
      let r := busRequest dev2
        (create_cart_opcode CART_OP_WRFRME 0 0 0 cur.2 0) cartBuffer
      if extract_cart_opcode r.1 .RT1 ≠ 0 then (-1, { s with dev := r.2.1 })
      else
        let pc := put_cart_cache s.cache cur.1 cur.2 cartBuffer
        if pc.1 ≠ 0 then (-1, { s with dev := r.2.1, cache := pc.2 })
        else
          let s2 : CartState := { s with dev := r.2.1, cache := pc.2 }
          if iteration = 0 then
            let e := fileAt s2 fd
            let e2 := { e with cartIndex := cur.1, frameIndex := cur.2 }
            let s3 : CartState :=
              { s2 with files := s2.files.set fd e2,
                        table := tableSet s2.table cur fd }
            let cur2 := (findFirstFree s3.table).getD cur
            writeBackLoop lbuf fd counter2 (iteration + 1) cur2 s3
          else if cur.1 = 0 ∧ cur.2 = 0 then (-1, s2)
          else if cur.1 = CART_MAX_CARTRIDGES ∨ cur.2 = CART_CARTRIDGE_SIZE then
            (-1, s2)
          else
            let s3 : CartState := { s2 with table := tableSet s2.table cur fd }
            let cur2 := (findFirstFree s3.table).getD cur
            writeBackLoop lbuf fd counter2 (iteration + 1) cur2 s3
  termination_by counter => counter
  decreasing_by
    all_goals split <;> (simp only [CART_FRAME_SIZE] at *) <;> omega

/-- Embedding of cart_write (cart_driver.c, lines 559 to 882).  First
writes chunk the caller's buffer straight into scanned free slots and set
length and position to count; successive writes check table space, read
the whole existing content back (freeing its slots), splice the new bytes
at the current position, recompute length via strlen, and rewrite
everything into scanned free slots. -/
def cart_write (s : CartState) (fd : Nat) (buf : List Nat) (count : Int) :
    Int × CartState :=
  let e := fileAt s fd
  if count < 0 then (-1, s)
  else if e.filehandle < 0 ∨ e.openfile = false then (-1, s)
  else if ¬(0 < s.files.length ∧ e.filehandle = (fd : Int)) then (-1, s)
  else
    let buf_size := cstrlen buf
    let lbuf0 := if e.filelength > 0
      then List.replicate (buf_size + e.filelength) 0
      else List.replicate count.toNat 0
    if e.incart = false then
      let cur := (findFirstFree s.table).getD (e.cartIndex, e.frameIndex)
      let res := firstWriteLoop buf count.toNat fd count.toNat 0 cur zeroFrame s
      if res.1 = 0 then (count, res.2) else res
    else
      if check_table_space s fd count.toNat ≠ 0 then (-1, s)
      else
        match get_file_pieces s fd with
        | none => (-1, s)
        | some pieces =>
          let first := pieces.headD (0, 0)
          let s1 : CartState := { s with dev := (load_this_cart s.dev first.1).2 }
          let rb := readbackLoop pieces (e.filelength : Int) 0 first lbuf0 s1
          if rb.1 ≠ 0 then (rb.1, rb.2.1)
          else
            let s2 := rb.2.1
            let lbuf2 := memcpyList rb.2.2.1 e.fileposition buf count.toNat
            let newlen := cstrlen lbuf2
            let e2 := fileAt s2 fd
            let pos3 := if e2.filelength < e2.fileposition + buf_size
              then newlen else e2.fileposition + count.toNat
            let e3 := { e2 with filelength := newlen, fileposition := pos3 }
            let s3 : CartState := { s2 with files := s2.files.set fd e3 }
            let cur := (findFirstFree s3.table).getD rb.2.2.2
            let wb := writeBackLoop lbuf2 fd newlen 0 cur s3
            if wb.1 = 0 then (count, wb.2) else wb

/-- The driver state right after cart_poweron (cart_driver.c, lines 148 to
230) with the given configured cache size: one reset file entry, a clear
allocation table, a fresh cache and a device with every cartridge zeroed
and cartridge 0 the last one loaded (the BZERO loop of poweron loads each
cartridge in turn but zeroes the loaded one; the final loaded index does
not matter to any claim, and 0 is used). -/
def freshState (cacheSize : Nat) : CartState :=
  { files := [emptyFileEntry],
    table := fun _ _ => { filehandle := -1, isused := false },
    cache := init_cart_cache cacheSize,
    dev := { loaded := 0, frames := fun _ _ => zeroFrame } }

/-! ## Scan lemmas over the allocation grid -/

theorem mem_gridIndices {p : Nat × Nat} :
    p ∈ gridIndices ↔
      p.1 < CART_MAX_CARTRIDGES ∧ p.2 < CART_CARTRIDGE_SIZE := by
  unfold gridIndices
  simp only [List.mem_flatMap, List.mem_map, List.mem_range]
  constructor
  · rintro ⟨c, hc, f, hf, rfl⟩
    exact ⟨hc, hf⟩
  · rintro ⟨h1, h2⟩
    exact ⟨p.1, h1, p.2, h2, Prod.mk.eta⟩

theorem grid_find?_eq_none {pred : Nat × Nat → Bool}
    (h : ∀ c < CART_MAX_CARTRIDGES, ∀ f < CART_CARTRIDGE_SIZE,
      pred (c, f) = false) :
    gridIndices.find? pred = none := by
  rw [List.find?_eq_none]
  intro p hp
  obtain ⟨h1, h2⟩ := mem_gridIndices.mp hp
  have := h p.1 h1 p.2 h2
  rw [Prod.mk.eta] at this
  simp [this]

theorem grid_countP_eq_zero {pred : Nat × Nat → Bool}
    (h : ∀ c < CART_MAX_CARTRIDGES, ∀ f < CART_CARTRIDGE_SIZE,
      pred (c, f) = false) :
    gridIndices.countP pred = 0 := by
  rw [List.countP_eq_zero]
  intro p hp
  obtain ⟨h1, h2⟩ := mem_gridIndices.mp hp
  have := h p.1 h1 p.2 h2
  rw [Prod.mk.eta] at this
  simp [this]

set_option maxRecDepth 40000 in
theorem gridIndices_cons_head : gridIndices = (0, 0) :: gridIndices.tail := by
  rfl

set_option maxRecDepth 40000 in
theorem gridIndices_cons_two :
    gridIndices = (0, 0) :: (0, 1) :: gridIndices.tail.tail := by
  rfl

theorem grid_find?_head {pred : Nat × Nat → Bool} (h : pred (0, 0) = true) :
    gridIndices.find? pred = some (0, 0) := by
  rw [gridIndices_cons_head]
  exact List.find?_cons_of_pos _ h

theorem grid_find?_second {pred : Nat × Nat → Bool} (h0 : pred (0, 0) = false)
    (h1 : pred (0, 1) = true) :
    gridIndices.find? pred = some (0, 1) := by
  rw [gridIndices_cons_two, List.find?_cons_of_neg _ (by rw [h0]; decide),
    List.find?_cons_of_pos _ h1]

theorem gridIndices_eq_row_split :
    gridIndices = (List.range CART_CARTRIDGE_SIZE).map (Prod.mk 0) ++
      ((List.range 63).map Nat.succ).flatMap
        (fun c => (List.range CART_CARTRIDGE_SIZE).map (Prod.mk c)) := by
  unfold gridIndices CART_MAX_CARTRIDGES
  rw [show (64 : Nat) = 63 + 1 from rfl, List.range_succ_eq_map,
    List.flatMap_cons]

theorem grid_filter_single {pred : Nat × Nat → Bool} (h00 : pred (0, 0) = true)
    (hrest : ∀ c < CART_MAX_CARTRIDGES, ∀ f < CART_CARTRIDGE_SIZE,
      (c, f) ≠ ((0 : Nat), (0 : Nat)) → pred (c, f) = false) :
    gridIndices.filter pred = [(0, 0)] := by
  rw [gridIndices_eq_row_split, List.filter_append]
  have hrow : (List.range CART_CARTRIDGE_SIZE).map (Prod.mk 0) =
      ((0 : Nat), (0 : Nat)) ::
        ((List.range 1023).map Nat.succ).map (Prod.mk 0) := by
    rw [show CART_CARTRIDGE_SIZE = 1023 + 1 from rfl, List.range_succ_eq_map]
    rfl
  rw [hrow, List.filter_cons_of_pos h00]
  have htail : (((List.range 1023).map Nat.succ).map
      (Prod.mk (0 : Nat))).filter pred = [] := by
    rw [List.filter_eq_nil_iff]
    intro p hp
    simp only [List.mem_map, List.mem_range] at hp
    obtain ⟨f, ⟨j, hj, rfl⟩, rfl⟩ := hp
    have : pred (0, j.succ) = false := by
      apply hrest 0 (by norm_num [CART_MAX_CARTRIDGES]) j.succ
        (by simp only [CART_CARTRIDGE_SIZE]; omega)
      simp
    simp [this]
  have hrest2 : (((List.range 63).map Nat.succ).flatMap
      (fun c => (List.range CART_CARTRIDGE_SIZE).map (Prod.mk c))).filter pred
      = [] := by
    rw [List.filter_eq_nil_iff]
    intro p hp
    simp only [List.mem_flatMap, List.mem_map, List.mem_range] at hp
    obtain ⟨c, ⟨j, hj, rfl⟩, f, hf, rfl⟩ := hp
    have : pred (j.succ, f) = false := by
      apply hrest j.succ (by simp only [CART_MAX_CARTRIDGES]; omega) f hf
      simp
    simp [this]
  rw [htail, hrest2]
  rfl

/-! ## Claims over cart_seek and cart_close -/

/-- C9 (counterexample): cart_seek never inspects the open flag.  On the
freshly powered-on state the single file-table entry is closed, yet
seeking to offset 0 succeeds, where the claim requires failure for every
offset on a closed file. -/
theorem cart_seek_closed_zero_succeeds :
    (fileAt (freshState 2) 0).openfile = false ∧
    (cart_seek (freshState 2) 0 0).1 = 0 := by
  decide

/-- C9 (amended): cart_seek performs only the bounds check of the offset
against the stored length.  For a closed entry (whose length is 0 by the
file-table invariant) this rejects every positive offset but accepts
offset 0 as a no-op position reset; for an open entry it succeeds exactly
when the offset is at most the length, setting the position and touching
nothing else (no allocated frame, no table slot, no cache entry). -/
theorem cart_seek_spec (s : CartState) (fd : Nat) (loc : Nat) :
    ((fileAt s fd).openfile = false → (fileAt s fd).filelength = 0 →
      (0 < loc → cart_seek s fd loc = (-1, s)) ∧
      (loc = 0 → cart_seek s fd loc =
        (0, { s with files := s.files.set fd ({ fileAt s fd with fileposition := 0 }) }))) ∧
    ((fileAt s fd).openfile = true →
      (loc ≤ (fileAt s fd).filelength → cart_seek s fd loc =
        (0, { s with files := s.files.set fd ({ fileAt s fd with fileposition := loc }) })) ∧
      ((fileAt s fd).filelength < loc → cart_seek s fd loc = (-1, s))) := by
  refine ⟨fun _ hlen => ⟨fun hpos => ?_, fun hzero => ?_⟩,
    fun _ => ⟨fun hle => ?_, fun hgt => ?_⟩⟩
  · rw [cart_seek, if_pos (by omega)]
  · subst hzero
    rw [cart_seek, if_neg (by omega)]
  · rw [cart_seek, if_neg (by omega)]
  · rw [cart_seek, if_pos (by omega)]

/-- Concrete instantiation of the seek behavior: on the fresh state with
its closed entry, seeking to offset 3 fails and changes nothing. -/
theorem cart_seek_spec_witness :
    cart_seek (freshState 2) 0 3 = (-1, freshState 2) :=
  ((cart_seek_spec (freshState 2) 0 3).1 (by decide) (by decide)).1 (by decide)

/-- C10 (confirmed): cart_close on an entry that is not open (open flag
clear or stored handle negative) returns -1 and leaves the whole state —
every file-system entry and every allocation-table slot — unchanged; when
the entry is open it resets exactly the entry at index fd (incart
excepted) and touches neither the table, the cache, the device nor any
other entry. -/
theorem cart_close_spec (s : CartState) (fd : Nat) :
    (((fileAt s fd).openfile = false ∨ (fileAt s fd).filehandle < 0) →
      cart_close s fd = (-1, s)) ∧
    (((fileAt s fd).openfile = true ∧ 0 ≤ (fileAt s fd).filehandle) →
      cart_close s fd =
        (0, { s with files := s.files.set fd (closeResetEntry (fileAt s fd)) })) ∧
    (cart_close s fd).2.table = s.table ∧
    (∀ j, j ≠ fd →
      (cart_close s fd).2.files.getD j emptyFileEntry =
        s.files.getD j emptyFileEntry) := by
  refine ⟨fun h => ?_, fun h => ?_, ?_, ?_⟩
  · rw [cart_close, if_neg ?_]
    rintro ⟨h1, h2⟩
    rcases h with h | h
    · rw [h2] at h; cases h
    · omega
  · rw [cart_close, if_pos ⟨h.2, h.1⟩]
  · rw [cart_close]
    split <;> rfl
  · intro j hj
    rw [cart_close]
    split
    · simp only [List.getD, List.get?_eq_getElem?]
      rw [List.getElem?_set_ne (Ne.symm hj)]
    · rfl

/-- Concrete instantiation of the close behavior: closing the fresh
state's closed entry fails and leaves the state unchanged. -/
theorem cart_close_spec_witness :
    cart_close (freshState 2) 0 = (-1, freshState 2) :=
  (cart_close_spec (freshState 2) 0).1 (Or.inl (by decide))

/-! ## Claim over cart_open -/

/-- File state with slot 0 closed (a was opened and closed again) and slot
1 currently open under the path b. -/
def dupState : CartState :=
  (cart_close (cart_open (cart_open (freshState 2) "a").2 "b").2 0).2

/-- C6 (code bug evidence): the path b is the filename of the currently
open entry 1, and a closed slot exists at the lower index 0; cart_open
with path b nevertheless succeeds, returning handle 0 and writing a second
entry named b, because the single scan takes the first closed slot before
it ever reaches the open duplicate.  The claim and the spec require the
duplicate path to be rejected regardless of slot order. -/
theorem cart_open_duplicate_not_rejected :
    (fileAt dupState 1).filename = "b" ∧
    (fileAt dupState 1).openfile = true ∧
    (fileAt dupState 0).openfile = false ∧
    (cart_open dupState "b").1 = 0 ∧
    (fileAt (cart_open dupState "b").2 0).filename = "b" ∧
    (fileAt (cart_open dupState "b").2 0).openfile = true ∧
    (fileAt (cart_open dupState "b").2 1).filename = "b" ∧
    (fileAt (cart_open dupState "b").2 1).openfile = true := by
  decide

/-! ## Claims over cart_read at end of file -/

theorem extract_zero_rt1 : extract_cart_opcode 0 .RT1 = 0 := by decide

/-- With the modelled device (whose response register is always clear) one
iteration of the read loop never fails. -/
theorem readFrameStep_isSome (pieces : List (Nat × Nat)) (iteration : Nat)
    (st : ReadLoopState) :
    (readFrameStep pieces iteration st).isSome = true := by
  unfold readFrameStep
  dsimp only
  cases hg : (get_cart_cache st.cache st.theCart st.theFrame).1 with
  | some c => rfl
  | none => simp [busRequest_fst, extract_zero_rt1]

theorem readFramesLoop_isSome (pieces : List (Nat × Nat)) :
    ∀ n iteration st, ∃ st2, readFramesLoop pieces n iteration st = some st2 := by
  intro n
  induction n with
  | zero => exact fun _ st => ⟨st, rfl⟩
  | succ m ih =>
    intro it st
    cases h : readFrameStep pieces it st with
    | none =>
        have := readFrameStep_isSome pieces it st
        rw [h] at this
        cases this
    | some st2 =>
        rw [readFramesLoop, h]
        exact ih (it + 1) st2

/-- The failing arm at end of file: with position at length, any read of at
least one byte returns -1 (for a nonempty file through the end-of-file arm,
for an empty file through the NULL of get_file_pieces). -/
theorem cart_read_eof_pos_fails (s : CartState) (fd : Nat) (count : Int)
    (hfd : fd < s.files.length)
    (hopen : (fileAt s fd).openfile = true)
    (hhandle : (fileAt s fd).filehandle = (fd : Int))
    (heof : (fileAt s fd).fileposition = (fileAt s fd).filelength)
    (hcount : 1 ≤ count) :
    (cart_read s fd count).1 = -1 := by
  unfold cart_read
  dsimp only
  rw [if_neg (by omega), if_neg (by rw [hhandle, hopen]; simp),
    if_neg (by push_neg; exact ⟨by omega, hhandle⟩)]
  unfold get_file_pieces
  by_cases hlen : (fileAt s fd).filelength < 1
  · rw [if_pos hlen]
  · rw [if_neg hlen]
    dsimp only
    obtain ⟨stf, hloop⟩ := readFramesLoop_isSome (filePieces s.table fd)
      (filePieces s.table fd).length 0
      { cache := s.cache,
        dev := (load_this_cart s.dev ((filePieces s.table fd).headD (0, 0)).1).2,
        theCart := ((filePieces s.table fd).headD (0, 0)).1,
        theFrame := ((filePieces s.table fd).headD (0, 0)).2,
        buffer := List.replicate (fileAt s fd).filelength 0 }
    rw [hloop]
    dsimp only
    rw [if_neg (by omega), if_pos (by omega)]

/-- The dual arm used to refute the claim at count 0: with position at
length on a nonempty file, a zero-byte read succeeds returning 0. -/
theorem cart_read_at_eof_zero (s : CartState) (fd : Nat)
    (hfd : fd < s.files.length)
    (hopen : (fileAt s fd).openfile = true)
    (hhandle : (fileAt s fd).filehandle = (fd : Int))
    (_heof : (fileAt s fd).fileposition = (fileAt s fd).filelength)
    (hlen : 1 ≤ (fileAt s fd).filelength) :
    (cart_read s fd 0).1 = 0 := by
  unfold cart_read
  dsimp only
  rw [if_neg (by omega), if_neg (by rw [hhandle, hopen]; simp),
    if_neg (by push_neg; exact ⟨by omega, hhandle⟩)]
  unfold get_file_pieces
  rw [if_neg (by omega)]
  dsimp only
  obtain ⟨stf, hloop⟩ := readFramesLoop_isSome (filePieces s.table fd)
    (filePieces s.table fd).length 0
    { cache := s.cache,
      dev := (load_this_cart s.dev ((filePieces s.table fd).headD (0, 0)).1).2,
      theCart := ((filePieces s.table fd).headD (0, 0)).1,
      theFrame := ((filePieces s.table fd).headD (0, 0)).2,
      buffer := List.replicate (fileAt s fd).filelength 0 }
  rw [hloop]
  dsimp only
  rw [if_pos (by omega)]

/-- The empty-file arm at count 0: an open file of length 0 fails with -1
even for a zero-byte read, because get_file_pieces yields NULL (none) for a
file without content before any count comparison is reached. -/
theorem cart_read_eof_empty_fails (s : CartState) (fd : Nat)
    (hfd : fd < s.files.length)
    (hopen : (fileAt s fd).openfile = true)
    (hhandle : (fileAt s fd).filehandle = (fd : Int))
    (hlen : (fileAt s fd).filelength = 0) :
    (cart_read s fd 0).1 = -1 := by
  unfold cart_read
  dsimp only
  rw [if_neg (by omega), if_neg (by rw [hhandle, hopen]; simp),
    if_neg (by push_neg; exact ⟨by omega, hhandle⟩)]
  unfold get_file_pieces
  rw [if_pos (by omega)]

/-- C5 (amended): for every open handle whose position equals its length,
cart_read fails with -1 for every count of at least one byte; a zero-byte
read instead succeeds returning 0 when the file is nonempty (length at
least 1), but still fails with -1 on an open empty file (length 0), where
get_file_pieces returns NULL before the count is consulted. -/
theorem cart_read_at_eof (s : CartState) (fd : Nat) (count : Int)
    (hfd : fd < s.files.length)
    (hopen : (fileAt s fd).openfile = true)
    (hhandle : (fileAt s fd).filehandle = (fd : Int))
    (heof : (fileAt s fd).fileposition = (fileAt s fd).filelength) :
    (1 ≤ count → (cart_read s fd count).1 = -1) ∧
      (1 ≤ (fileAt s fd).filelength → (cart_read s fd 0).1 = 0) ∧
      ((fileAt s fd).filelength = 0 → (cart_read s fd 0).1 = -1) :=
  ⟨fun hcount => cart_read_eof_pos_fails s fd count hfd hopen hhandle heof
      hcount,
    fun hlen => cart_read_at_eof_zero s fd hfd hopen hhandle heof hlen,
    fun hlen => cart_read_eof_empty_fails s fd hfd hopen hhandle hlen⟩

/-- An open one-frame file of one byte whose position sits at its length,
with its frame at address (0, 0) and a fresh capacity-2 cache. -/
def eofState : CartState :=
  { files := [{ filename := "f", filehandle := 0, fileposition := 1,
                filelength := 1, cartIndex := 0, frameIndex := 0,
                openfile := true, incart := true }],
    table := fun c f =>
      if c = 0 ∧ f = 0 then { filehandle := 0, isused := true }
      else { filehandle := -1, isused := false },
    cache := init_cart_cache 2,
    dev := { loaded := 0,
             frames := fun c f =>
               if c = 0 ∧ f = 0 then memcpyList zeroFrame 0 [65] 1
               else zeroFrame } }

/-- C5 (counterexample): on an open file whose position equals its length,
cart_read with count 0 returns 0 (success) rather than failing, refuting
the claim which requires failure for every count of at least zero. -/
theorem cart_read_eof_count_zero_succeeds :
    (fileAt eofState 0).openfile = true ∧
    (fileAt eofState 0).fileposition = (fileAt eofState 0).filelength ∧
    (cart_read eofState 0 0).1 = 0 :=
  ⟨by decide, by decide,
    cart_read_at_eof_zero eofState 0 (by decide) (by decide) (by decide)
      (by decide) (by decide)⟩

/-- Concrete instantiation of the amended end-of-file behavior on the
one-byte file at its end: a one-byte read fails with -1 and a zero-byte
read succeeds returning 0. -/
theorem cart_read_at_eof_witness :
    ((0 : Nat) < eofState.files.length ∧
      (fileAt eofState 0).openfile = true ∧
      (fileAt eofState 0).filehandle = ((0 : Nat) : Int) ∧
      (fileAt eofState 0).fileposition = (fileAt eofState 0).filelength) ∧
    (cart_read eofState 0 1).1 = -1 ∧ (cart_read eofState 0 0).1 = 0 :=
  ⟨⟨by decide, by decide, by decide, by decide⟩,
    (cart_read_at_eof eofState 0 1 (by decide) (by decide) (by decide)
      (by decide)).1 (by decide),
    (cart_read_at_eof eofState 0 1 (by decide) (by decide) (by decide)
      (by decide)).2.1 (by decide)⟩

/-! ## Device dispatch lemmas -/

theorem busRequest_ldcart (d : Device) (buf : List Nat) (cart : Nat)
    (h : cart < 2 ^ 16) :
    busRequest d (create_cart_opcode CART_OP_LDCART 0 0 cart 0 0) buf =
      (0, { d with loaded := cart }, buf) := by
  obtain ⟨hk, -, -, hc, -⟩ := opcode_roundtrip CART_OP_LDCART 0 0 cart 0 0
    (by decide) (by decide) (by decide) h (by decide) (by decide)
  unfold busRequest
  dsimp only
  rw [if_pos hk, hc]

theorem busRequest_rdfrme (d : Device) (buf : List Nat) (frame : Nat)
    (h : frame < 2 ^ 16) :
    busRequest d (create_cart_opcode CART_OP_RDFRME 0 0 0 frame 0) buf =
      (0, d, d.frames d.loaded frame) := by
  obtain ⟨hk, -, -, -, hf⟩ := opcode_roundtrip CART_OP_RDFRME 0 0 0 frame 0
    (by decide) (by decide) (by decide) (by decide) h (by decide)
  unfold busRequest
  dsimp only
  rw [if_neg (by rw [hk]; decide), if_pos hk, hf]

theorem busRequest_wrfrme (d : Device) (buf : List Nat) (frame : Nat)
    (h : frame < 2 ^ 16) :
    busRequest d (create_cart_opcode CART_OP_WRFRME 0 0 0 frame 0) buf =
      (0, { d with frames := fun c f =>
              if c = d.loaded ∧ f = frame then buf else d.frames c f }, buf) := by
  obtain ⟨hk, -, -, -, hf⟩ := opcode_roundtrip CART_OP_WRFRME 0 0 0 frame 0
    (by decide) (by decide) (by decide) (by decide) h (by decide)
  unfold busRequest
  dsimp only
  rw [if_neg (by rw [hk]; decide), if_neg (by rw [hk]; decide), if_pos hk, hf]

theorem load_this_cart_eq (d : Device) (cart : Nat) (h : cart < 2 ^ 16) :
    load_this_cart d cart = (0, { d with loaded := cart }) := by
  unfold load_this_cart
  rw [busRequest_ldcart d zeroFrame cart h]
  dsimp only
  rw [if_neg (by rw [extract_zero_rt1]; omega)]

/-! ## Claims over cart_write capacity checking -/

/-- C7 (amended, failing side): for a subsequent write that extends the
file (length < position + count), when
ceil((filelength + count) / CART_FRAME_SIZE) exceeds the number of
currently-free allocation-table slots, cart_write fails returning -1 and
the entire state — allocation table, cache, device, every file entry with
its length and position — is exactly as before the call: the capacity
check runs before any mutation. -/
theorem cart_write_capacity_fail_no_mutation (s : CartState) (fd : Nat)
    (buf : List Nat) (count : Int)
    (hfd : fd < s.files.length)
    (hopen : (fileAt s fd).openfile = true)
    (hhandle : (fileAt s fd).filehandle = (fd : Int))
    (hincart : (fileAt s fd).incart = true)
    (hcount : 0 ≤ count)
    (hextend : (fileAt s fd).filelength <
      (fileAt s fd).fileposition + count.toNat)
    (hshort : freeSlotCount s.table <
      ((fileAt s fd).filelength + count.toNat + CART_FRAME_SIZE - 1) /
        CART_FRAME_SIZE) :
    cart_write s fd buf count = (-1, s) := by
  have hcheck : check_table_space s fd count.toNat = -1 := by
    unfold check_table_space
    dsimp only
    rw [if_neg (by omega), if_pos (by simp only [CART_FRAME_SIZE] at hshort ⊢; omega)]
  unfold cart_write
  dsimp only
  rw [if_neg (by omega), if_neg (by rw [hhandle, hopen]; simp),
    if_neg (by push_neg; exact ⟨by omega, hhandle⟩),
    if_neg (by rw [hincart]; simp), if_pos (by rw [hcheck]; decide)]

/-- Open one-byte file at slot (0, 0) of an otherwise fully occupied
allocation table, its position at its length. -/
def wcapState : CartState :=
  { files := [{ filename := "f", filehandle := 0, fileposition := 1,
                filelength := 1, cartIndex := 0, frameIndex := 0,
                openfile := true, incart := true }],
    table := fun c f =>
      if c = 0 ∧ f = 0 then { filehandle := 0, isused := true }
      else { filehandle := 1, isused := true },
    cache := init_cart_cache 2,
    dev := { loaded := 0,
             frames := fun c f =>
               if c = 0 ∧ f = 0 then memcpyList zeroFrame 0 [65] 1
               else zeroFrame } }

theorem wcapState_no_free : freeSlotCount wcapState.table = 0 := by
  unfold freeSlotCount
  apply grid_countP_eq_zero
  intro c _ f _
  show ((wcapState.table c f).isused == false) = false
  unfold wcapState
  dsimp only
  split <;> rfl

/-- Concrete instantiation of the capacity-failure behavior: extending the
one-byte file by two bytes with zero free slots fails without mutation. -/
theorem cart_write_capacity_fail_witness :
    cart_write wcapState 0 [66, 66] 2 = (-1, wcapState) :=
  cart_write_capacity_fail_no_mutation wcapState 0 [66, 66] 2 (by decide)
    (by decide) (by decide) (by decide) (by decide) (by decide)
    (by rw [wcapState_no_free]; decide)

def owState : CartState :=
  { files := [{ filename := "f", filehandle := 0, fileposition := 0,
                filelength := 1, cartIndex := 0, frameIndex := 0,
                openfile := true, incart := true }],
    table := fun c f =>
      if c = 0 ∧ f = 0 then { filehandle := 0, isused := true }
      else { filehandle := 1, isused := true },
    cache := init_cart_cache 2,
    dev := { loaded := 0,
             frames := fun c f =>
               if c = 0 ∧ f = 0 then memcpyList zeroFrame 0 [65] 1
               else zeroFrame } }

def owS1 : CartState :=
  { files := owState.files, table := owState.table, cache := owState.cache,
    dev := { loaded := 0, frames := owState.dev.frames } }

def owS2 : CartState :=
  { files := owState.files, table := tableSetUnused owState.table (0, 0),
    cache := owState.cache, dev := { loaded := 0, frames := owState.dev.frames } }

set_option maxRecDepth 100000 in
theorem ow_readback :
    readbackLoop [(0, 0)] 1 0 (0, 0) (List.replicate 2 0) owS1 =
      (0, owS2, [65, 0], (0, 0)) := by
  rw [readbackLoop]
  rw [dif_neg (by decide)]
  norm_num [List.getD]
  rw [show owS1.dev = { loaded := 0, frames := owState.dev.frames } from rfl]
  rw [busRequest_rdfrme _ _ 0 (by decide)]
  dsimp only
  rw [if_pos extract_zero_rt1]
  rw [if_neg (by norm_num [CART_FRAME_SIZE])]
  rw [show owState.dev.frames 0 0 = memcpyList zeroFrame 0 [65] 1 from rfl]
  rw [show memcpyList (List.replicate 2 0) 0 (memcpyList zeroFrame 0 [65] 1) 1
    = [65, 0] from by decide]
  rw [readbackLoop, dif_pos (by norm_num [CART_FRAME_SIZE])]
  rfl

theorem put_cart_cache_of_free (s : CacheState) (c f : Nat) (buf : List Nat)
    (i : Nat)
    (h : findFreeCacheSlot { s with lruCounter := s.lruCounter + 1 } = some i) :
    put_cart_cache s c f buf =
      (0, placeCacheEntry { s with lruCounter := s.lruCounter + 1 } i c f buf) := by
  unfold put_cart_cache
  dsimp only
  rw [h]

def owEntry2 : FileEntry :=
  { filename := "f", filehandle := 0, fileposition := 1, filelength := 1,
    cartIndex := 0, frameIndex := 0, openfile := true, incart := true }

def owS3 : CartState :=
  { files := owS2.files.set 0 owEntry2, table := owS2.table,
    cache := owS2.cache, dev := owS2.dev }

def owCB : List Nat := memcpyList zeroFrame 0 [66, 0] 1

def owS4 : CartState :=
  { files := owS3.files.set 0
      { owEntry2 with cartIndex := 0, frameIndex := 0 },
    table := tableSet owS3.table (0, 0) 0,
    cache := placeCacheEntry
      { owState.cache with lruCounter := owState.cache.lruCounter + 1 }
      0 0 0 owCB,
    dev := { loaded := 0, frames := fun c f =>
      if c = 0 ∧ f = 0 then owCB else owState.dev.frames c f } }

set_option maxRecDepth 100000 in
theorem ow_free_after : findFirstFree (tableSet owS3.table 0 0) = none := by
  apply grid_find?_eq_none
  intro c _ f _
  show ((tableSet owS3.table 0 0 c f).isused == false) = false
  unfold tableSet owS3 owS2 tableSetUnused owState
  dsimp only
  by_cases h : c = 0 ∧ f = 0
  · simp [Prod.fst_zero, Prod.snd_zero, h]
  · simp [Prod.fst_zero, Prod.snd_zero, h]

set_option maxRecDepth 100000 in
theorem writeBackLoop_zero (lbuf : List Nat) (fd it : Nat) (cur : Nat × Nat)
    (s : CartState) : writeBackLoop lbuf fd 0 it cur s = (0, s) := by
  rw [writeBackLoop.eq_def]

set_option maxRecDepth 100000 in
theorem ow_writeback :
    writeBackLoop [66, 0] 0 1 0 (0, 0) owS3 = (0, owS4) := by
  rw [show (1 : Nat) = 0 + 1 from rfl, writeBackLoop]
  norm_num [List.getD]
  simp only [show (if 1 ≤ CART_FRAME_SIZE then 1 else CART_FRAME_SIZE) = 1
      from by norm_num [CART_FRAME_SIZE],
    show owS3.dev = { loaded := 0, frames := owState.dev.frames } from rfl,
    show owS3.cache = init_cart_cache 2 from rfl,
    load_this_cart_eq { loaded := 0, frames := owState.dev.frames } 0 (by decide),
    busRequest_wrfrme { loaded := 0, frames := owState.dev.frames }
      (memcpyList zeroFrame 0 [66, 0] 1) 0 (by decide),
    put_cart_cache_of_free (init_cart_cache 2) 0 0
      (memcpyList zeroFrame 0 [66, 0] 1) 0 (by decide),
    extract_zero_rt1]
  simp only [if_true,
    show (if 1 ≤ CART_FRAME_SIZE then 0 else 1 - CART_FRAME_SIZE) = 0
      from by norm_num [CART_FRAME_SIZE],
    ow_free_after, Option.getD_none, writeBackLoop_zero]
  dsimp only [fileAt]
  simp only [show owS3.files.getD 0 emptyFileEntry = owEntry2 from rfl]
  rfl

theorem owState_pieces : filePieces owState.table 0 = [(0, 0)] := by
  unfold filePieces
  apply grid_filter_single
  · decide
  · intro c hc f hf hne
    show (((owState.table c f).filehandle == ((0 : Nat) : Int)) &&
      (owState.table c f).isused) = false
    unfold owState
    dsimp only
    by_cases h : c = 0 ∧ f = 0
    · exact absurd (by rw [h.1, h.2]) hne
    · rw [if_neg h]
      rfl

theorem ow_free_mid : findFirstFree (tableSetUnused owState.table 0) = some (0, 0) :=
  grid_find?_head (by decide)

set_option maxRecDepth 1000000 in
theorem ow_readback2 :
    readbackLoop [(0, 0)] (((fileAt owState 0).filelength : Nat) : Int) 0 (0, 0)
      (if (fileAt owState 0).filelength > 0 then
        List.replicate (cstrlen [66] + (fileAt owState 0).filelength) 0
       else List.replicate (Int.toNat 1) 0)
      { files := owState.files, table := owState.table, cache := owState.cache,
        dev := (load_this_cart owState.dev 0).2 } =
      (0, owS2, [65, 0], (0, 0)) := by
  have h := ow_readback
  rw [show (load_this_cart owState.dev 0).2
      = ({ loaded := 0, frames := owState.dev.frames } : Device) from by
    rw [load_this_cart_eq owState.dev 0 (by decide)]]
  exact h

set_option maxRecDepth 1000000 in
theorem ow_writeback2 :
    writeBackLoop (memcpyList [65, 0] (fileAt owState 0).fileposition [66] (Int.toNat 1)) 0
      (cstrlen (memcpyList [65, 0] (fileAt owState 0).fileposition [66] (Int.toNat 1))) 0
      ((findFirstFree owS2.table).getD (0, 0))
      { files :=
          owS2.files.set 0
            { filename := (fileAt owS2 0).filename,
              filehandle := (fileAt owS2 0).filehandle,
              fileposition :=
                if (fileAt owS2 0).filelength <
                    (fileAt owS2 0).fileposition + cstrlen [66] then
                  cstrlen (memcpyList [65, 0] (fileAt owState 0).fileposition [66] (Int.toNat 1))
                else (fileAt owS2 0).fileposition + Int.toNat 1,
              filelength :=
                cstrlen (memcpyList [65, 0] (fileAt owState 0).fileposition [66] (Int.toNat 1)),
              cartIndex := (fileAt owS2 0).cartIndex,
              frameIndex := (fileAt owS2 0).frameIndex,
              openfile := (fileAt owS2 0).openfile,
              incart := (fileAt owS2 0).incart },
        table := owS2.table, cache := owS2.cache, dev := owS2.dev } =
      (0, owS4) :=
  ow_writeback

set_option maxRecDepth 1000000 in
theorem owState_trace : (cart_write owState 0 [66] 1).1 = 1 := by
  have hcts : check_table_space owState 0 (Int.toNat 1) = 0 := by
    unfold check_table_space
    dsimp only
    rw [if_pos (by decide)]
  unfold cart_write
  dsimp only
  rw [if_neg (by decide), if_neg (by decide), if_neg (by decide),
    if_neg (by decide), if_neg (by rw [hcts]; decide)]
  unfold get_file_pieces
  rw [if_neg (by decide), owState_pieces]
  simp only [List.headD_cons]
  rw [ow_readback2]
  dsimp only
  rw [if_neg (by decide)]
  rw [ow_writeback2]
  rw [if_pos rfl]

theorem owState_no_free : freeSlotCount owState.table = 0 := by
  unfold freeSlotCount
  apply grid_countP_eq_zero
  intro c _ f _
  show ((owState.table c f).isused == false) = false
  unfold owState
  dsimp only
  split <;> rfl

/-- C7 (counterexample): on a fully occupied allocation table (zero free
slots) holding an open one-byte file, an in-place overwrite of that byte
succeeds returning 1: the up-front capacity check is skipped whenever the
write stays inside the current length, and the rewrite recycles the
file's own freed frame.  The claim as stated requires every subsequent
write with insufficient free slots for the resulting file to fail. -/
theorem cart_write_overwrite_ignores_free_slots :
    freeSlotCount owState.table = 0 ∧
    (fileAt owState 0).incart = true ∧
    1 ≤ (fileAt owState 0).filelength ∧
    (cart_write owState 0 [66] 1).1 = 1 :=
  ⟨owState_no_free, by decide, by decide, owState_trace⟩

theorem put_fst_free (s : CacheState) (c f : Nat) (b : List Nat) (i : Nat)
    (h : findFreeCacheSlot { s with lruCounter := s.lruCounter + 1 } = some i) :
    (put_cart_cache s c f b).1 = 0 := by
  rw [put_cart_cache_of_free s c f b i h]

def openFState : CartState := (cart_open (freshState 2) "f").2

theorem openF_free_head : findFirstFree openFState.table = some (0, 0) :=
  grid_find?_head (by decide)

theorem openF_free_second :
    findFirstFree (tableSet openFState.table (0, 0) 0) = some (0, 1) :=
  grid_find?_second (by decide) (by decide)

set_option maxRecDepth 1000000 in
theorem fwFail_loop_fst :
    (firstWriteLoop (List.replicate 1025 65) (Int.toNat 1025) 0 (Int.toNat 1025) 0
      ((findFirstFree openFState.table).getD
        ((fileAt openFState 0).cartIndex, (fileAt openFState 0).frameIndex))
      zeroFrame openFState).1 = -1 := by
  rw [openF_free_head]
  rw [show Option.getD (some ((0 : Nat), (0 : Nat)))
    ((fileAt openFState 0).cartIndex, (fileAt openFState 0).frameIndex) = (0, 0)
    from rfl]
  rw [show Int.toNat 1025 = 1024 + 1 from rfl]
  rw [firstWriteLoop]
  rw [if_neg (by rw [busRequest_fst, extract_zero_rt1]; omega)]
  dsimp only
  rw [if_neg (by rw [put_fst_free _ _ _ _ 0 (by decide)]; omega)]
  unfold firstWriteClaimSlot
  rw [if_pos rfl]
  dsimp only
  rw [openF_free_second]
  rw [show (if 1024 + 1 ≤ CART_FRAME_SIZE then 0 else 1024 + 1 - CART_FRAME_SIZE)
    = 0 + 1 from rfl]
  rw [show Option.getD (some ((0 : Nat), (1 : Nat))) ((0 : Nat), (0 : Nat)) = (0, 1)
    from rfl]
  rw [firstWriteLoop]
  rw [if_neg (by rw [busRequest_fst, extract_zero_rt1]; omega)]
  dsimp only
  rw [if_neg (by rw [put_fst_free _ _ _ _ 1 (by decide)]; omega)]
  unfold firstWriteClaimSlot
  rw [if_neg (by omega)]
  rw [if_pos (Or.inl rfl)]

set_option maxRecDepth 1000000 in
theorem fwFail_write :
    (cart_write openFState 0 (List.replicate 1025 65) 1025).1 = -1 := by
  unfold cart_write
  dsimp only
  rw [if_neg (by decide)]
  rw [if_neg (by decide)]
  rw [if_neg (by decide)]
  rw [if_pos (by decide)]
  rw [fwFail_loop_fst]
  rw [if_neg (by omega)]
  exact fwFail_loop_fst

theorem cstrlen_append_replicate_zero (data : List Nat) (k : Nat)
    (hnz : ∀ b ∈ data, b ≠ 0) :
    cstrlen (data ++ List.replicate k 0) = data.length := by
  induction data with
  | nil =>
      simp only [List.nil_append, List.length_nil]
      unfold cstrlen
      cases k with
      | zero => rfl
      | succ j => simp [List.replicate_succ]
  | cons b rest ih =>
      have hb : b ≠ 0 := hnz b (List.mem_cons_self b rest)
      unfold cstrlen at *
      simp only [List.cons_append, List.takeWhile_cons, List.length_cons]
      rw [if_pos (by simpa using hb)]
      simp only [List.length_cons]
      rw [ih (fun x hx => hnz x (List.mem_cons_of_mem b hx))]

theorem memcpy_zeroFrame_eq (data : List Nat) (N : Nat)
    (hlen : data.length = N) :
    memcpyList zeroFrame 0 data N =
      data ++ List.replicate (CART_FRAME_SIZE - N) 0 := by
  unfold memcpyList zeroFrame
  rw [List.take_zero, List.nil_append, Nat.zero_add, List.drop_replicate,
    ← hlen, List.take_length]

theorem strncpy_fixed (data : List Nat) (N : Nat)
    (hlen : data.length = N) (hN : N ≤ CART_FRAME_SIZE)
    (hnz : ∀ b ∈ data, b ≠ 0) :
    strncpyList (data ++ List.replicate (CART_FRAME_SIZE - N) 0)
      CART_FRAME_SIZE = data ++ List.replicate (CART_FRAME_SIZE - N) 0 := by
  unfold strncpyList
  rw [cstrlen_append_replicate_zero data _ hnz, hlen, Nat.min_eq_left hN]
  dsimp only
  rw [← hlen, List.take_left]

def fwEntry (N : Nat) : FileEntry :=
  { filename := "f", filehandle := 0, fileposition := N, filelength := N,
    cartIndex := 0, frameIndex := 0, openfile := true, incart := true }

def fwBuf (data : List Nat) (N : Nat) : List Nat :=
  memcpyList zeroFrame 0 data N

def fwS (data : List Nat) (N : Nat) : CartState :=
  { files := [fwEntry N]
    table := tableSet openFState.table (0, 0) 0
    cache := (put_cart_cache openFState.cache 0 0 (fwBuf data N)).2
    dev := (busRequest (load_this_cart openFState.dev 0).2
      (create_cart_opcode CART_OP_WRFRME 0 0 0 0 0) (fwBuf data N)).2.1 }

set_option maxRecDepth 1000000 in
theorem fw_loop (data : List Nat) (m : Nat) (hm : m + 1 ≤ CART_FRAME_SIZE) :
    firstWriteLoop data (m + 1) 0 (m + 1) 0 ((0 : Nat), (0 : Nat)) zeroFrame
      openFState = (0, fwS data (m + 1)) := by
  rw [firstWriteLoop]
  rw [if_pos hm]
  rw [if_pos hm]
  simp only [Nat.zero_mul, List.drop_zero]
  rw [if_neg (by rw [busRequest_fst, extract_zero_rt1]; omega)]
  rw [if_neg (by rw [put_fst_free _ _ _ _ 0 (by decide)]; omega)]
  unfold firstWriteClaimSlot
  rw [if_pos rfl]
  dsimp only
  rw [openF_free_second]
  rw [firstWriteLoop]
  rfl

set_option maxRecDepth 1000000 in
theorem fw_write (data : List Nat) (m : Nat) (hlen : data.length = m + 1)
    (hm : m + 1 ≤ CART_FRAME_SIZE) :
    cart_write openFState 0 data ((data.length : Nat) : Int) =
      (((m + 1 : Nat) : Int), fwS data (m + 1)) := by
  unfold cart_write
  dsimp only
  rw [if_neg (by omega)]
  rw [if_neg (by decide)]
  rw [if_neg (by decide)]
  rw [if_pos (by decide)]
  rw [openF_free_head]
  rw [show Option.getD (some ((0 : Nat), (0 : Nat)))
    ((fileAt openFState 0).cartIndex, (fileAt openFState 0).frameIndex) = (0, 0)
    from rfl]
  rw [hlen, Int.toNat_natCast]
  rw [fw_loop data m hm]
  rw [if_pos rfl]

def fwS0 (data : List Nat) (N : Nat) : CartState :=
  { files := [{ fwEntry N with fileposition := 0 }]
    table := tableSet openFState.table (0, 0) 0
    cache := (put_cart_cache openFState.cache 0 0 (fwBuf data N)).2
    dev := (busRequest (load_this_cart openFState.dev 0).2
      (create_cart_opcode CART_OP_WRFRME 0 0 0 0 0) (fwBuf data N)).2.1 }

theorem fw_seek (data : List Nat) (N : Nat) :
    cart_seek (fwS data N) 0 0 = (0, fwS0 data N) := by
  unfold cart_seek
  dsimp only
  rw [if_neg (by omega)]
  rfl

theorem fw_pieces : filePieces (tableSet openFState.table (0, 0) 0) 0 = [(0, 0)] := by
  unfold filePieces
  apply grid_filter_single
  · decide
  · intro c hc f hf hne
    show (((tableSet openFState.table (0, 0) 0 c f).filehandle == ((0 : Nat) : Int)) &&
      (tableSet openFState.table (0, 0) 0 c f).isused) = false
    unfold tableSet
    dsimp only
    by_cases h : c = 0 ∧ f = 0
    · exact absurd (by rw [h.1, h.2]) hne
    · rw [if_neg h]
      rfl

theorem get_hit_0 (s : CacheState) (c f : Nat) (hsz : s.size = 2)
    (hh : (s.slots 0).cacheHandle = create_cache_tag c f) :
    (get_cart_cache s c f).1 = some ((s.slots 0).cachedFrame) := by
  unfold get_cart_cache
  dsimp only
  rw [hsz]
  rw [show List.range 2 = [0, 1] from rfl]
  rw [List.find?_cons_of_pos _ (by simp [hh])]

theorem memcpy_readback (data : List Nat) (N k : Nat) (hlen : data.length = N) :
    memcpyList (List.replicate N 0) 0 (data ++ List.replicate k 0) N = data := by
  unfold memcpyList
  rw [List.take_zero, List.nil_append, Nat.zero_add, List.drop_replicate,
    Nat.sub_self, List.replicate_zero, List.append_nil, ← hlen, List.take_left]

theorem fw_slot0 (data : List Nat) (m : Nat) (hlen : data.length = m + 1)
    (hm : m + 1 ≤ CART_FRAME_SIZE) (hnz : ∀ b ∈ data, b ≠ 0) :
    ((placeCacheEntry
        { openFState.cache with lruCounter := openFState.cache.lruCounter + 1 }
        0 0 0 (fwBuf data (m + 1))).slots 0).cachedFrame =
      data ++ List.replicate (CART_FRAME_SIZE - (m + 1)) 0 := by
  show strncpyList (fwBuf data (m + 1)) CART_FRAME_SIZE = _
  unfold fwBuf
  rw [memcpy_zeroFrame_eq data (m + 1) hlen]
  exact strncpy_fixed data (m + 1) hlen hm hnz

theorem fw_gfp (data : List Nat) (m : Nat) :
    get_file_pieces (fwS0 data (m + 1)) 0 = some [(0, 0)] := by
  unfold get_file_pieces
  rw [show (fileAt (fwS0 data (m + 1)) 0).filelength = m + 1 from rfl]
  rw [if_neg (by omega)]
  rw [show (fwS0 data (m + 1)).table = tableSet openFState.table (0, 0) 0
    from rfl]
  rw [fw_pieces]

set_option maxRecDepth 1000000 in
theorem fw_read (data : List Nat) (m : Nat) (hlen : data.length = m + 1)
    (hm : m + 1 ≤ CART_FRAME_SIZE) (hnz : ∀ b ∈ data, b ≠ 0) :
    ∃ s', cart_read (fwS0 data (m + 1)) 0 ((m + 1 : Nat) : Int) =
      (((m + 1 : Nat) : Int), s', data) := by
  apply Exists.intro
  unfold cart_read
  rw [fw_gfp data m]
  rw [show fileAt (fwS0 data (m + 1)) 0 =
    { filename := "f", filehandle := 0, fileposition := 0, filelength := m + 1,
      cartIndex := 0, frameIndex := 0, openfile := true, incart := true }
    from rfl]
  dsimp only
  rw [if_neg (by omega)]
  rw [if_neg (by decide)]
  rw [if_neg (fun hcon => hcon ⟨Nat.zero_lt_one, rfl⟩)]
  rw [show ([((0 : Nat), (0 : Nat))] : List (Nat × Nat)).headD (0, 0) = (0, 0)
    from rfl]
  rw [show ([((0 : Nat), (0 : Nat))] : List (Nat × Nat)).length = 0 + 1
    from rfl]
  dsimp only
  rw [show (fwS0 data (m + 1)).cache =
    (put_cart_cache openFState.cache 0 0 (fwBuf data (m + 1))).2 from rfl]
  rw [put_cart_cache_of_free openFState.cache 0 0 (fwBuf data (m + 1)) 0
    (by decide)]
  dsimp only
  rw [readFramesLoop]
  unfold readFrameStep
  dsimp only
  rw [get_hit_0 _ _ _ (by rfl) (by rfl)]
  rw [fw_slot0 data m hlen hm hnz]
  dsimp only
  rw [cstrlen_append_replicate_zero data _ hnz, hlen]
  simp only [Nat.zero_mul]
  rw [memcpy_readback data (m + 1) _ hlen]
  rw [readFramesLoop]
  dsimp only
  rw [Int.toNat_natCast]
  rw [if_pos (by omega)]
  simp only [List.drop_zero]
  rw [show List.take (m + 1) data = data from by rw [← hlen, List.take_length]]

set_option maxRecDepth 1000000 in
/-- Claim C1 (amended): on the canonical fresh state (power-on followed by a
single cart_open, the handle never written), writing N bytes with
0 < N ≤ CART_FRAME_SIZE and every byte nonzero reports N bytes written;
a subsequent cart_seek to offset 0 succeeds; and a cart_read of N bytes
then succeeds and returns exactly the written bytes, unchanged.  The
original unrestricted claim is refuted for N beyond one frame (the
first-write loop's slot guard; see the counterexample) and cannot hold for
buffers with interior zero bytes, whose stored length is recomputed with
strlen. -/
theorem first_write_single_frame_roundtrip (data : List Nat)
    (h1 : 0 < data.length) (h2 : data.length ≤ CART_FRAME_SIZE)
    (h3 : ∀ b ∈ data, b ≠ 0) :
    (cart_write openFState 0 data ((data.length : Nat) : Int)).1 =
        ((data.length : Nat) : Int) ∧
      (cart_seek (cart_write openFState 0 data
        ((data.length : Nat) : Int)).2 0 0).1 = 0 ∧
      (cart_read (cart_seek (cart_write openFState 0 data
        ((data.length : Nat) : Int)).2 0 0).2 0 ((data.length : Nat) : Int)).1 =
        ((data.length : Nat) : Int) ∧
      (cart_read (cart_seek (cart_write openFState 0 data
        ((data.length : Nat) : Int)).2 0 0).2 0
        ((data.length : Nat) : Int)).2.2 = data := by
  obtain ⟨m, hm⟩ : ∃ m, data.length = m + 1 := ⟨data.length - 1, by omega⟩
  have hm2 : m + 1 ≤ CART_FRAME_SIZE := hm ▸ h2
  have hw := fw_write data m hm hm2
  rw [hm] at hw ⊢
  rw [hw]
  dsimp only
  rw [fw_seek data (m + 1)]
  dsimp only
  obtain ⟨s', hr⟩ := fw_read data m hm hm2 h3
  rw [hr]
  exact ⟨rfl, rfl, rfl, rfl⟩

/-- Closed instance of the amended claim C1 theorem at the one-byte buffer
[65]: all three hypotheses hold by evaluation and the write/seek/read
sequence round-trips the byte. -/
theorem first_write_single_frame_roundtrip_witness :
    (0 < ([65] : List Nat).length ∧ ([65] : List Nat).length ≤ CART_FRAME_SIZE ∧
      ∀ b ∈ ([65] : List Nat), b ≠ 0) ∧
    ((cart_write openFState 0 [65] ((([65] : List Nat).length : Nat) : Int)).1 =
        ((([65] : List Nat).length : Nat) : Int) ∧
      (cart_seek (cart_write openFState 0 [65]
        ((([65] : List Nat).length : Nat) : Int)).2 0 0).1 = 0 ∧
      (cart_read (cart_seek (cart_write openFState 0 [65]
        ((([65] : List Nat).length : Nat) : Int)).2 0 0).2 0
        ((([65] : List Nat).length : Nat) : Int)).1 =
        ((([65] : List Nat).length : Nat) : Int) ∧
      (cart_read (cart_seek (cart_write openFState 0 [65]
        ((([65] : List Nat).length : Nat) : Int)).2 0 0).2 0
        ((([65] : List Nat).length : Nat) : Int)).2.2 = [65]) :=
  ⟨⟨by decide, by decide, by decide⟩,
    first_write_single_frame_roundtrip [65] (by decide) (by decide) (by decide)⟩

/-- Claim C1 counterexample: the original claim quantifies over every byte
count N > 0, but on the canonical fresh handle a first write of N = 1025
bytes (one byte more than a frame) returns -1 instead of 1025: after
filling frame (0, 0) the loop moves to the scanned free slot (0, 1), whose
cartridge component 0 trips the slot guard of cart_driver.c line 677, so
the write fails and no read can return the written bytes. -/
theorem first_write_beyond_frame_fails :
    ((1025 : Int) > 0) ∧
    (cart_write openFState 0 (List.replicate 1025 65) 1025).1 = -1 :=
  ⟨by decide, fwFail_write⟩
